import Mathlib

/-!
# Checkout pricing, payment validation and order routing

A shallow embedding of the logic in

* `client/src/pages/Checkout.jsx` (the totals computed on every render,
  `handleSubmit` and the empty-cart return of the component),
* `client/src/pages/Payment.jsx` (`validateForm`, `formatCardNumber`, the totals
  of the page and `handleSubmit`),
* `client/src/utils/orderApi.js` (`createOrder`),
* `server/routes/order.route.js` (the order router's route table).

Numbers.  JavaScript numbers are modelled as exact rationals (`ℚ`); the decimal
literal `0.18` is the rational `18/100`.  The rounding of IEEE-754 doubles is not
modelled: in doubles `5 * 0.18` is `0.8999999999999999` and `0.1 * 3` is
`0.30000000000000004`.  The statements about amounts below are therefore those
that do not depend on rounding: they compare amounts, copy them, or recompute
the same expression from the same values; the concrete carts used as instances
are ones whose amounts the doubles represent exactly.  No statement says that an
amount is exactly a sum or a product for every cart.

Strings.  JavaScript strings are modelled as Lean strings, read as lists of
characters.  All character classes used by the source (`\s`, `[0-9]`) lie in the
Basic Multilingual Plane, where code units and code points coincide.

Objects.  Objects that travel between the pages and the server (addresses, the
order-creation body, responses and errors) are plain objects: lists of named
properties.  The collaborators `createAddress` and `api.post` are parameters.
The server's order creation, whose controller is not among the sources, is
modelled from the specification where a statement needs it.
-/

namespace Ecommerce

/-! ## Checkout.jsx: totals -/

/-- A cart entry as read by `Checkout.jsx`: `_id`, `name`, `image`, `price`, `quantity`. -/
structure CartItem where
  _id : String
  name : String
  image : String
  price : ℚ
  quantity : ℚ
  deriving DecidableEq

/-- The four amounts computed by `Checkout.jsx` lines 69-80. -/
structure Pricing where
  subtotal : ℚ
  shippingCost : ℚ
  tax : ℚ
  total : ℚ
  deriving DecidableEq

/-- Line 70:
`cart.reduce((total, item) => total + (item.price * item.quantity), 0)`, as the
exact value of the fold (the rounding of each double step is not modelled). -/
def subtotal (cart : List CartItem) : ℚ :=
  cart.foldl (fun total item => total + item.price * item.quantity) 0

/-- Lines 71-77: `let shippingCost = 0`, then the `standard` / `express` branches.
Any other method string leaves the initial `0`. -/
def shippingCost (sub : ℚ) (shippingMethod : String) : ℚ :=
  if shippingMethod = "standard" then
    (if sub > 5000 then 0 else 300)
  else if shippingMethod = "express" then
    500
  else
    0

/-- Line 79: `subtotal * 0.18`, as the exact product (the rounding of the double
product is not modelled). -/
def tax (sub : ℚ) : ℚ :=
  sub * (18 / 100)

/-- Lines 69-80 as one function of the cart and the shipping method; `total` is
the exact value of `subtotal + shippingCost + tax` (the rounding of the double
sums is not modelled). -/
def computePricing (cart : List CartItem) (shippingMethod : String) : Pricing :=
  let sub := subtotal cart
  let ship := shippingCost sub shippingMethod
  let t := tax sub
  { subtotal := sub, shippingCost := ship, tax := t, total := sub + ship + t }

/-- A cart line with the given price and quantity (other fields blank). -/
def line (price quantity : ℚ) : CartItem :=
  { _id := "", name := "", image := "", price := price, quantity := quantity }

/-! ## Payment.jsx: `validateForm` -/

/-- The `paymentInfo` state of `Payment.jsx` (lines 13-19). -/
structure PaymentInfo where
  cardName : String
  cardNumber : String
  expiryMonth : String
  expiryYear : String
  cvv : String
  deriving DecidableEq

/-- The characters matched by `\s` in a JavaScript regular expression, which are
also the ones removed by `String.prototype.trim`: the ECMAScript WhiteSpace and
LineTerminator code points. -/
def isWhiteSpace (c : Char) : Bool :=
  let n := c.toNat
  n = 0x09 || n = 0x0A || n = 0x0B || n = 0x0C || n = 0x0D || n = 0x20 ||
  n = 0xA0 || n = 0x1680 || (0x2000 ≤ n && n ≤ 0x200A) ||
  n = 0x2028 || n = 0x2029 || n = 0x202F || n = 0x205F || n = 0x3000 || n = 0xFEFF

/-- The class `[0-9]`: the code points U+0030 .. U+0039. -/
def isDigit09 (c : Char) : Bool :=
  0x30 ≤ c.toNat && c.toNat ≤ 0x39

/-- The expression `s.replace(/\s/g, "")`: every whitespace character is removed. -/
def stripWhitespace (s : String) : String :=
  ⟨s.data.filter (fun c => !isWhiteSpace c)⟩

/-- The expression `s.trim()`: whitespace is removed from both ends. -/
def trim (s : String) : String :=
  ⟨((s.data.dropWhile isWhiteSpace).reverse.dropWhile isWhiteSpace).reverse⟩

/-- One quantified character class of a regular expression, `[cls]{min,max}`. -/
structure Atom where
  cls : Char → Bool
  min : Nat
  max : Nat

/-- Backtracking match of one quantified class followed by the rest of the
pattern, given as the continuation `rest`.  `n` counts the characters already
taken by the class; the greedy branch is tried first. -/
def matchRep (a : Atom) (rest : List Char → Bool) : Nat → List Char → Bool
  | n, [] => decide (a.min ≤ n) && rest []
  | n, c :: cs =>
      (decide (n < a.max) && a.cls c && matchRep a rest (n + 1) cs) ||
      (decide (a.min ≤ n) && rest (c :: cs))

/-- Match of a sequence of quantified classes against a whole string: the
pattern is anchored by `^` and `$`, and without the `m` flag `$` is the end of
the input. -/
def matchAtoms : List Atom → List Char → Bool
  | [], s => s.isEmpty
  | a :: as, s => matchRep a (matchAtoms as) 0 s

/-- The call `re.test(s)` for an anchored pattern `^atoms$`. -/
def regexTest (atoms : List Atom) (s : String) : Bool :=
  matchAtoms atoms s.data

/-- Line 67: `/^[0-9]{16}$/`. -/
def cardNumberRegex : List Atom := [⟨isDigit09, 16, 16⟩]

/-- Line 82: `/^[0-9]{3,4}$/`. -/
def cvvRegex : List Atom := [⟨isDigit09, 3, 4⟩]

/-- The object `newErrors` built by `validateForm` (lines 59-85), as the list of
its `(key, message)` entries in insertion order. -/
def validateFormErrors (paymentInfo : PaymentInfo) : List (String × String) :=
  let e0 : List (String × String) := []
  let e1 := if (trim paymentInfo.cardName) = "" then
      e0 ++ [("cardName", "Name on card is required")] else e0
  let e2 := if !regexTest cardNumberRegex (stripWhitespace paymentInfo.cardNumber) then
      e1 ++ [("cardNumber", "Please enter a valid 16-digit card number")] else e1
  let e3 := if paymentInfo.expiryMonth = "" then
      e2 ++ [("expiryMonth", "Month is required")] else e2
  let e4 := if paymentInfo.expiryYear = "" then
      e3 ++ [("expiryYear", "Year is required")] else e3
  let e5 := if !regexTest cvvRegex paymentInfo.cvv then
      e4 ++ [("cvv", "Please enter a valid 3 or 4 digit CVV")] else e4
  e5

/-- The value returned by `validateForm` (line 88):
`Object.keys(newErrors).length === 0`. -/
def validateForm (paymentInfo : PaymentInfo) : Bool :=
  (validateFormErrors paymentInfo).length == 0

/-- Whether `newErrors` has an entry under `key`. -/
def hasError (errors : List (String × String)) (key : String) : Bool :=
  errors.any (fun e => e.1 == key)

/-- Line 40: `Array.from({ length: 10 }, (_, i) => currentYear + i)`. -/
def years (currentYear : Nat) : List Nat :=
  (List.range 10).map (fun i => currentYear + i)

/-- The values offered by the month select (lines 331-339): the empty
placeholder and `01` .. `12`. -/
def monthOptions : List String :=
  ["", "01", "02", "03", "04", "05", "06", "07", "08", "09", "10", "11", "12"]

/-! ## order.route.js: the order router -/

/-- HTTP request methods. -/
inductive Method where
  | GET | HEAD | POST | PUT | DELETE | PATCH
  deriving DecidableEq

/-- The middleware and controller functions named in `order.route.js`. -/
inductive Handler where
  | auth | adminAuth
  | getUserOrders | getOrderById | createOrder | updateOrderPayment
  | cancelOrder | getAllOrders | updateOrderStatus
  deriving DecidableEq

/-- One registration `router.METHOD(path, ...handlers)`. -/
structure Route where
  method : Method
  path : String
  handlers : List Handler
  deriving DecidableEq

/-- The route table of `order.route.js`, lines 16-24, in registration order. -/
def orderRoutes : List Route :=
  [ ⟨.GET, "/", [.auth, .getUserOrders]⟩,
    ⟨.GET, "/:id", [.auth, .getOrderById]⟩,
    ⟨.POST, "/", [.auth, .createOrder]⟩,
    ⟨.PUT, "/:id/pay", [.auth, .updateOrderPayment]⟩,
    ⟨.PUT, "/:id/cancel", [.auth, .cancelOrder]⟩,
    ⟨.GET, "/admin", [.auth, .adminAuth, .getAllOrders]⟩,
    ⟨.PUT, "/:id/status", [.auth, .adminAuth, .updateOrderStatus]⟩ ]

/-- Split at every `/`: the pieces between the slashes, empty pieces included. -/
def splitSlash : List Char → List (List Char)
  | [] => [[]]
  | c :: cs =>
      if c = '/' then [] :: splitSlash cs
      else match splitSlash cs with
        | [] => [[c]]
        | seg :: segs => (c :: seg) :: segs

/-- Drop one trailing empty piece: the router is not strict, so one trailing
slash is optional. -/
def dropTrailingEmpty : List (List Char) → List (List Char)
  | [] => []
  | [seg] => if seg = [] then [] else [seg]
  | seg :: segs => seg :: dropTrailingEmpty segs

/-- The segments of a path that starts with `/` (or is empty), `none` for any
other string. -/
def pathSegments (path : String) : Option (List (List Char)) :=
  match splitSlash path.data with
  | [] :: rest => some (dropTrailingEmpty rest)
  | _ => none

/-- Whether a request segment matches a pattern segment, and the parameter it
binds: `:name` matches any non-empty segment (`[^\/]+?`); a literal matches
itself, letter case ignored (the router is not case sensitive). -/
def matchSegment (pat seg : List Char) : Option (List (String × String)) :=
  match pat with
  | ':' :: name => if seg = [] then none else some [(String.mk name, String.mk seg)]
  | _ => if seg.map Char.toLower = pat.map Char.toLower then some [] else none

/-- Match the segments of a request against those of a pattern, collecting the
parameters. -/
def matchSegments : List (List Char) → List (List Char) → Option (List (String × String))
  | [], [] => some []
  | pat :: pats, seg :: segs =>
      match matchSegment pat seg, matchSegments pats segs with
      | some ps, some qs => some (ps ++ qs)
      | _, _ => none
  | _, _ => none

/-- The parameters bound when `path` matches the route pattern `pattern`,
`none` when it does not match. -/
def matchPath (pattern path : String) : Option (List (String × String)) :=
  match pathSegments pattern, pathSegments path with
  | some pats, some segs => matchSegments pats segs
  | _, _ => none

/-- Whether a route handles a method: its own, and `HEAD` when it is a `GET`
route. -/
def handlesMethod (r : Route) (m : Method) : Bool :=
  r.method = m || (m = .HEAD && r.method = .GET)

/-- Whether a route's method and path pattern match a request. -/
def routeMatches (r : Route) (m : Method) (path : String) : Bool :=
  handlesMethod r m && (matchPath r.path path).isSome

/-- The route that takes a request: routes are tried in registration order and
the first one whose method and path pattern match is chosen. -/
def dispatch (routes : List Route) (m : Method) (path : String) : Option Route :=
  routes.find? (fun r => routeMatches r m path)

/-! ## The expiry rule as the specification words it -/

/-- The decimal value of a non-empty string of ASCII digits, `none` for any
other string. -/
def decimalValue (s : String) : Option Nat :=
  if s.data ≠ [] ∧ s.data.all Char.isDigit then
    some (s.data.foldl (fun n c => 10 * n + (c.toNat - 48)) 0)
  else
    none

/-- The specification's rule for a bad expiry at the date `currentYear`,
`currentMonth`: the month is not one of `01` .. `12`, or the year is earlier
than the current year, or the year is the current year and the month is earlier
than the current month. -/
def specExpiryInvalid (p : PaymentInfo) (currentYear currentMonth : Nat) : Bool :=
  !(["01", "02", "03", "04", "05", "06", "07", "08", "09", "10", "11", "12"].contains
      p.expiryMonth)
  || (match decimalValue p.expiryYear with
      | some y =>
          decide (y < currentYear)
          || (decide (y = currentYear)
              && (match decimalValue p.expiryMonth with
                  | some m => decide (m < currentMonth)
                  | none => false))
      | none => false)

/-! ## Payment.jsx: the order in which `validateForm` checks the fields -/

/-- The keys of `newErrors` in the order in which lines 61-85 assign them. -/
def fieldOrder : List String :=
  ["cardName", "cardNumber", "expiryMonth", "expiryYear", "cvv"]

/-- The condition under which lines 61-85 record an error for the key. -/
def fieldCheckFails (paymentInfo : PaymentInfo) (key : String) : Bool :=
  if key = "cardName" then decide (trim paymentInfo.cardName = "")
  else if key = "cardNumber" then
    !regexTest cardNumberRegex (stripWhitespace paymentInfo.cardNumber)
  else if key = "expiryMonth" then decide (paymentInfo.expiryMonth = "")
  else if key = "expiryYear" then decide (paymentInfo.expiryYear = "")
  else if key = "cvv" then !regexTest cvvRegex paymentInfo.cvv
  else false

/-- The first field, in the order of the checks, whose check fails. -/
def firstInvalidField (paymentInfo : PaymentInfo) : Option String :=
  fieldOrder.find? (fieldCheckFails paymentInfo)

/-! ## JavaScript values -/

/-- A JavaScript value as far as the pages and the API wrappers handle it:
`undefined`, `null`, booleans, numbers, strings, arrays and plain objects (the
list of their own properties, in insertion order). -/
inductive Val where
  | undefined
  | null
  | bool (b : Bool)
  | num (q : ℚ)
  | str (s : String)
  | arr (items : List Val)
  | obj (fields : List (String × Val))

/-- The own properties of a plain object. -/
abbrev Obj := List (String × Val)

/-- The property read `o.key` on a plain object: `undefined` when `key` is not a
property. -/
def getField : Obj → String → Val
  | [], _ => .undefined
  | (k, v) :: rest, key => if k = key then v else getField rest key

/-- Whether `key` is a property of the plain object. -/
def hasField : Obj → String → Bool
  | [], _ => false
  | (k, _) :: rest, key => decide (k = key) || hasField rest key

/-- The optional read `v?.key`: `undefined` when `v` is `undefined` or `null`;
the property when `v` is a plain object; `undefined` for the other values, which
have no property of the names read here (`data`, `message`). -/
def optGet (v : Val) (key : String) : Val :=
  match v with
  | .obj fields => getField fields key
  | _ => .undefined

/-- Whether a value counts as true in a condition: `undefined`, `null`, `false`,
`0` and the empty string do not. -/
def truthy : Val → Bool
  | .undefined => false
  | .null => false
  | .bool b => b
  | .num q => decide (q ≠ 0)
  | .str s => decide (s ≠ "")
  | .arr _ => true
  | .obj _ => true

/-- The expression `a || b`. -/
def jsOr (a b : Val) : Val :=
  if truthy a then a else b

/-- The comparison `v === s` with a string `s`. -/
def strictEqStr (v : Val) (s : String) : Bool :=
  match v with
  | .str t => decide (t = s)
  | _ => false

/-! ## Checkout.jsx: `handleSubmit` and the empty-cart return -/

/-- The state of an address form (lines 16-36). -/
structure AddressForm where
  firstName : String
  lastName : String
  street : String
  city : String
  state : String
  zipCode : String
  country : String
  phone : String
  deriving DecidableEq

/-- One entry of `orderItems` (lines 194-200). -/
structure OrderItem where
  product : String
  name : String
  image : String
  price : ℚ
  quantity : ℚ
  deriving DecidableEq

/-- The object passed to `setCheckoutData` (lines 193-215). -/
structure CheckoutData where
  orderItems : List OrderItem
  shippingAddress : Val
  billingAddress : Val
  shippingMethod : String
  shippingCost : ℚ
  subtotal : ℚ
  tax : ℚ
  total : ℚ

/-- The state read by `Checkout.jsx`: the cart of the store and the component's
own state (lines 9-40). -/
structure CheckoutState where
  cart : List CartItem
  savedAddresses : List Obj
  selectedAddressId : String
  useNewAddress : Bool
  shippingAddress : AddressForm
  billingAddress : AddressForm
  sameAsShipping : Bool
  shippingMethod : String
  saveAddress : Bool

/-- What one run of `handleSubmit` does: the requests made to `createAddress`,
the saved-address list afterwards, the object given to `setCheckoutData` (if
any), the target of `navigate` (if any) and whether the `catch` branch ran. -/
structure CheckoutOutcome where
  createAddressCalls : List Obj
  savedAddresses : List Obj
  checkoutData : Option CheckoutData
  navigatedTo : Option String
  alerted : Bool

/-- The object `newAddressData` of lines 162-170. -/
def newAddressData (form : AddressForm) : Obj :=
  [ ("street", .str form.street),
    ("city", .str form.city),
    ("state", .str form.state),
    ("zipCode", .str form.zipCode),
    ("country", .str form.country),
    ("phone", .str form.phone),
    ("isDefault", .bool false) ]

/-- The six-field object literal of lines 182-189 (and 202-209 for billing). -/
def addressLiteral (form : AddressForm) : Obj :=
  [ ("street", .str form.street),
    ("city", .str form.city),
    ("state", .str form.state),
    ("zipCode", .str form.zipCode),
    ("country", .str form.country),
    ("phone", .str form.phone) ]

/-- Line 179: `savedAddresses.find(addr => addr._id === selectedAddressId)`,
`undefined` when no address is found. -/
def findSavedAddress (savedAddresses : List Obj) (selectedAddressId : String) : Val :=
  match savedAddresses.find? (fun addr => strictEqStr (getField addr "_id") selectedAddressId) with
  | some addr => .obj addr
  | none => .undefined

/-- Lines 194-200: the order items mapped from the cart. -/
def orderItemsOf (cart : List CartItem) : List OrderItem :=
  cart.map (fun item =>
    { product := item._id, name := item.name, image := item.image,
      price := item.price, quantity := item.quantity })

/-- Lines 192-218: the object given to `setCheckoutData` once the shipping
address is resolved.  The amounts are the ones computed on the render
(lines 69-80). -/
def checkoutDataOf (st : CheckoutState) (addressToUse : Val) : CheckoutData :=
  { orderItems := orderItemsOf st.cart
    shippingAddress := addressToUse
    billingAddress :=
      if st.sameAsShipping then addressToUse else .obj (addressLiteral st.billingAddress)
    shippingMethod := st.shippingMethod
    shippingCost := (computePricing st.cart st.shippingMethod).shippingCost
    subtotal := (computePricing st.cart st.shippingMethod).subtotal
    tax := (computePricing st.cart st.shippingMethod).tax
    total := (computePricing st.cart st.shippingMethod).total }

/-- The function `handleSubmit` of `Checkout.jsx` (lines 153-224).  The address
collaborator `createAddress` resolves with the created record (`some`) or
rejects (`none`); a rejection is caught on line 220, where nothing is stored. -/
def Checkout.handleSubmit (createAddress : Obj → Option Obj) (st : CheckoutState) :
    CheckoutOutcome :=
  if st.useNewAddress && st.saveAddress then
    match createAddress (newAddressData st.shippingAddress) with
    | some savedAddress =>
        { createAddressCalls := [newAddressData st.shippingAddress]
          savedAddresses := st.savedAddresses ++ [savedAddress]
          checkoutData := some (checkoutDataOf st (.obj savedAddress))
          navigatedTo := some "/payment"
          alerted := false }
    | none =>
        { createAddressCalls := [newAddressData st.shippingAddress]
          savedAddresses := st.savedAddresses
          checkoutData := none
          navigatedTo := none
          alerted := true }
  else if !st.useNewAddress then
    { createAddressCalls := []
      savedAddresses := st.savedAddresses
      checkoutData :=
        some (checkoutDataOf st (findSavedAddress st.savedAddresses st.selectedAddressId))
      navigatedTo := some "/payment"
      alerted := false }
  else
    { createAddressCalls := []
      savedAddresses := st.savedAddresses
      checkoutData := some (checkoutDataOf st (.obj (addressLiteral st.shippingAddress)))
      navigatedTo := some "/payment"
      alerted := false }

/-- What the component returns: the empty-cart notice of lines 227-241, which
has no form, or the page of lines 243 onwards, whose form submits to
`handleSubmit`. -/
inductive CheckoutView where
  | emptyCartNotice
  | checkoutForm
  deriving DecidableEq

/-- Lines 226-243: `if (cart.length === 0) return <notice>`, else the form. -/
def Checkout.render (st : CheckoutState) : CheckoutView :=
  if st.cart.length = 0 then .emptyCartNotice else .checkoutForm

/-! ## orderApi.js: `createOrder` -/

/-- How the call `api.post('/order', orderData)` ends: it resolves with a
response object or rejects with an error object. -/
inductive PostOutcome where
  | resolved (response : Obj)
  | rejected (error : Obj)

/-- The fallback message of line 45. -/
def failedToCreateOrder : String := "Failed to create order"

/-- The expression `error.response?.data?.message` of line 45. -/
def errorMessage (error : Obj) : Val :=
  optGet (optGet (getField error "response") "data") "message"

/-- The function `createOrder` of `orderApi.js` (lines 37-48): the value it
resolves with.  `post` is `api.post('/order', ·)`. -/
def createOrder (post : Val → PostOutcome) (orderData : Val) : Val :=
  match post orderData with
  | .resolved response =>
      .obj [("success", .bool true), ("data", getField response "data")]
  | .rejected error =>
      .obj [("success", .bool false),
            ("error", jsOr (errorMessage error) (.str failedToCreateOrder))]

/-! ## Payment.jsx: totals and `handleSubmit` -/

/-- The expression `a || b` where `a` is a number or `undefined` (`none`) and
`b` is a number: `a` unless it is `undefined` or `0`. -/
def numOr (a : Option ℚ) (b : ℚ) : ℚ :=
  match a with
  | some x => if x ≠ 0 then x else b
  | none => b

/-- The four amounts shown by `Payment.jsx` (lines 31-36). -/
structure PaymentTotals where
  subtotal : ℚ
  shipping : ℚ
  tax : ℚ
  total : ℚ
  deriving DecidableEq

/-- Lines 31-36 of `Payment.jsx`; `checkoutData` is `none` when the store holds
no checkout data. -/
def paymentTotals (checkoutData : Option CheckoutData) (cart : List CartItem) :
    PaymentTotals :=
  let subtotal := numOr (checkoutData.map (·.subtotal))
    (cart.foldl (fun total item => total + item.price * item.quantity) 0)
  let shipping := numOr (checkoutData.map (·.shippingCost))
    (if subtotal > 5000 then 0 else 300)
  let tax := numOr (checkoutData.map (·.tax)) (subtotal * (18 / 100))
  let total := numOr (checkoutData.map (·.total)) (subtotal + shipping + tax)
  { subtotal := subtotal, shipping := shipping, tax := tax, total := total }

/-- An order item as a plain object. -/
def orderItemVal (item : OrderItem) : Val :=
  .obj [ ("product", .str item.product),
         ("name", .str item.name),
         ("image", .str item.image),
         ("price", .num item.price),
         ("quantity", .num item.quantity) ]

/-- The object `orderData` of lines 134-142. -/
def orderData (checkoutData : CheckoutData) (paymentMethod : String) : Obj :=
  [ ("orderItems", .arr (checkoutData.orderItems.map orderItemVal)),
    ("shippingAddress", checkoutData.shippingAddress),
    ("paymentMethod", .str paymentMethod),
    ("subtotal", .num checkoutData.subtotal),
    ("tax", .num checkoutData.tax),
    ("shipping", .num checkoutData.shippingCost),
    ("total", .num checkoutData.total) ]

/-- The state read by `handleSubmit` of `Payment.jsx` (lines 9-21). -/
structure PaymentState where
  cart : List CartItem
  checkoutData : Option CheckoutData
  paymentMethod : String
  paymentInfo : PaymentInfo
  isProcessing : Bool

/-- What one run of `handleSubmit` of `Payment.jsx` does: the object given to
`setErrors` by `validateForm`, the body given to `createOrder` (if any), the
target of `navigate` (if any), whether an alert was shown and the value of
`isProcessing` afterwards. -/
structure PaymentOutcome where
  errors : List (String × String)
  request : Option Obj
  navigatedTo : Option String
  alerted : Bool
  isProcessing : Bool

/-- Lines 147-155: whether the success branch reaches `navigate`; reading
`response.data._id.substring` throws unless `data` is an object whose `_id` is a
string. -/
def orderInfoReadable (response : Val) : Bool :=
  match optGet response "data" with
  | .obj data =>
      (match getField data "_id" with
       | .str _ => true
       | _ => false)
  | _ => false

/-- The function `handleSubmit` of `Payment.jsx` (lines 123-179).  It returns
early, sending nothing, unless `validateForm()` holds and the checkout data is
present; a throw inside the `try` block is caught on line 174. -/
def Payment.handleSubmit (post : Val → PostOutcome) (st : PaymentState) : PaymentOutcome :=
  match validateForm st.paymentInfo, st.checkoutData with
  | true, some checkoutData =>
      let body := orderData checkoutData st.paymentMethod
      let response := createOrder post (.obj body)
      if truthy (optGet response "success") && orderInfoReadable response then
        { errors := validateFormErrors st.paymentInfo
          request := some body
          navigatedTo := some "/order-confirmation"
          alerted := false
          isProcessing := true }
      else
        { errors := validateFormErrors st.paymentInfo
          request := some body
          navigatedTo := none
          alerted := true
          isProcessing := false }
  | _, _ =>
      { errors := validateFormErrors st.paymentInfo
        request := none
        navigatedTo := none
        alerted := false
        isProcessing := st.isProcessing }

/-! ## Payment.jsx: `formatCardNumber` -/

/-- The expression `s.replace(/[^0-9]/gi, "")`: every character that is not a
digit `0` .. `9` is removed. -/
def removeNonDigits (s : String) : String :=
  ⟨s.data.filter isDigit09⟩

/-- One attempt to match the pattern `[cls]{min,max}` at the start of `s`: the
class is greedy, so it takes the longest run of class characters, up to `max`;
the attempt succeeds when the run has at least `min` characters. -/
def matchAt (a : Atom) (s : List Char) : Option (List Char) :=
  let run := (s.takeWhile a.cls).take a.max
  if a.min ≤ run.length then some run else none

/-- The matches of `s.match(/[cls]{min,max}/g)`, from left to right: a match is
attempted at each position; after a match the search resumes at its end (`skip`
counts the characters of the last match still to be passed over), after a
failure at the next position. -/
def matchGlobal (a : Atom) : Nat → List Char → List (List Char)
  | _, [] =>
      match matchAt a [] with
      | some m => [m]
      | none => []
  | skip + 1, _ :: cs => matchGlobal a skip cs
  | 0, c :: cs =>
      match matchAt a (c :: cs) with
      | some m => m :: matchGlobal a (m.length - 1) cs
      | none => matchGlobal a 0 cs

/-- Line 94: `(matches && matches[0]) || ""`, the first match or the empty
string when there is none. -/
def firstMatch (matches_ : List (List Char)) : List Char :=
  match matches_ with
  | [] => []
  | m :: _ => m

/-- Lines 95-99: the loop `for (i = 0; i < len; i += 4)` pushing
`match.substring(i, i + 4)`. -/
def cardParts (m : List Char) : List (List Char) :=
  (List.range ((m.length + 3) / 4)).map (fun k => (m.drop (4 * k)).take 4)

/-- Line 93: `/\d{4,16}/g`. -/
def digitRunRegex : Atom := ⟨isDigit09, 4, 16⟩

/-- The function `formatCardNumber` of `Payment.jsx` (lines 91-106).  On line 92
`replace(/\s+/g, "")` replaces every run of whitespace by the empty string, which
removes every whitespace character. -/
def formatCardNumber (value : String) : String :=
  let v := removeNonDigits (stripWhitespace value)
  let matches_ := matchGlobal digitRunRegex 0 v.data
  let m := firstMatch matches_
  let parts := cardParts m
  if parts.length ≠ 0 then ⟨List.intercalate [' '] parts⟩ else value

/-! ## `formatCardNumber` as the reference words it -/

/-- Consecutive groups of 4, the last one possibly shorter. -/
def groupsOf4 : List Char → List (List Char)
  | [] => []
  | a :: b :: c :: d :: e :: rest => [a, b, c, d] :: groupsOf4 (e :: rest)
  | l => [l]

/-- The reference: with `d` the ASCII digits of the input in order and `n` their
count, the first `min n 16` digits in groups of 4 joined by single spaces when
`n ≥ 4`, the input itself otherwise. -/
def formatCardNumberRef (x : String) : String :=
  let d := x.data.filter Char.isDigit
  let n := d.length
  if 4 ≤ n then ⟨List.intercalate [' '] (groupsOf4 (d.take (min n 16)))⟩ else x

/-! ## The pricing of a draft's own order items -/

/-- An order item read back as a priced line, to recompute the pricing of a
draft from its own `orderItems`. -/
def orderItemLine (item : OrderItem) : CartItem :=
  { _id := item.product, name := item.name, image := item.image,
    price := item.price, quantity := item.quantity }

/-! ## The server's order creation, from the specification -/

/-- Modelled from the spec: the server side of `POST /orders`, whose controller
(`createOrder` of `controllers/order.controller.js`) is not among the sources.
Section 4.3 says that a creation request with the identity of an order already
created "must not produce two Orders; a repeat returns the already-created
Order".  The identity of a request (an idempotency token or, absent one, the
owner, the order lines and the totals), the server's validation (`accepts`), the
error it answers with (`rejection`) and the record it persists (`makeOrder`,
given the number of orders stored so far) are parameters.  The time window of
the specification is not modelled: both requests fall inside it. -/
structure OrderServer (Key : Type) where
  identity : String → Val → Key
  accepts : String → Val → Bool
  rejection : String → Val → Obj
  makeOrder : Nat → String → Val → Obj

/-- Modelled from the spec: one creation request of `owner` with body `body`
against the orders stored so far (each with the identity of its request): the
answer and the orders stored afterwards.  A rejected request stores nothing; a
repeat answers with the order already created and stores nothing; otherwise the
new order is stored and returned. -/
def OrderServer.create {Key : Type} [DecidableEq Key] (server : OrderServer Key)
    (store : List (Key × Obj)) (owner : String) (body : Val) :
    PostOutcome × List (Key × Obj) :=
  if server.accepts owner body then
    match store.find? (fun entry => decide (entry.1 = server.identity owner body)) with
    | some entry => (.resolved [("data", .obj entry.2)], store)
    | none =>
        (.resolved [("data", .obj (server.makeOrder store.length owner body))],
         store ++ [(server.identity owner body, server.makeOrder store.length owner body)])
  else
    (.rejected (server.rejection owner body), store)

/-- One run of `handleSubmit` of `Payment.jsx` by `owner` against the server:
what the run does, and the orders stored afterwards (the store changes only
through the request the run sends). -/
def submitPayment {Key : Type} [DecidableEq Key] (server : OrderServer Key)
    (owner : String) (store : List (Key × Obj)) (st : PaymentState) :
    PaymentOutcome × List (Key × Obj) :=
  ((Payment.handleSubmit (fun body => (server.create store owner body).1) st),
   (match (Payment.handleSubmit (fun body => (server.create store owner body).1) st).request with
    | some body => (server.create store owner (.obj body)).2
    | none => store))

/-! ## Theorems: checkout totals -/

/-- C2: with standard shipping the shipping cost is 0 exactly when the subtotal
is strictly greater than 5000 and is 300 otherwise; a subtotal of exactly 5000
pays 300, one line of price 2000 pays 300 at quantity 2 and 0 at quantity 3. -/
theorem standard_shipping_free_iff :
    (∀ cart : List CartItem,
      ((computePricing cart "standard").shippingCost = 0
        ↔ (computePricing cart "standard").subtotal > 5000)
      ∧ (computePricing cart "standard").shippingCost
        = if (computePricing cart "standard").subtotal > 5000 then 0 else 300)
    ∧ computePricing [line 2500 2] "standard" = ⟨5000, 300, 900, 6200⟩
    ∧ computePricing [line 2000 2] "standard" = ⟨4000, 300, 720, 5020⟩
    ∧ computePricing [line 2000 3] "standard" = ⟨6000, 0, 1080, 7080⟩ := by
  refine ⟨?_, ?_, ?_, ?_⟩
  · intro cart
    simp only [computePricing, shippingCost, if_true]
    by_cases h : subtotal cart > 5000
    · simp [h]
    · simp [h]
  · simp [computePricing, shippingCost, subtotal, tax, line]; norm_num
  · simp [computePricing, shippingCost, subtotal, tax, line]; norm_num
  · simp [computePricing, shippingCost, subtotal, tax, line]; norm_num

/-- C3: with express shipping the shipping cost is 500 for every cart, whatever
the subtotal: also above 5000 and for the empty cart. -/
theorem express_shipping_500 :
    (∀ cart : List CartItem, (computePricing cart "express").shippingCost = 500)
    ∧ (computePricing [line 2000 3] "express").subtotal = 6000
    ∧ (computePricing [line 2000 3] "express").shippingCost = 500
    ∧ (computePricing [] "express").subtotal = 0
    ∧ (computePricing [] "express").shippingCost = 500 := by
  have h : ∀ cart : List CartItem, (computePricing cart "express").shippingCost = 500 := by
    intro cart
    simp [computePricing, shippingCost]
  refine ⟨h, ?_, h _, ?_, h _⟩
  · simp [computePricing, subtotal, line]; norm_num
  · simp [computePricing, subtotal]

/-! ## Theorems: the order router -/

/-- Splitting always yields at least one piece. -/
theorem splitSlash_ne_nil (xs : List Char) : splitSlash xs ≠ [] := by
  cases xs with
  | nil => simp [splitSlash]
  | cons c cs =>
    simp only [splitSlash]
    split
    · simp
    · split <;> simp

/-- Splitting distributes over a slash. -/
theorem splitSlash_append_slash (xs ys : List Char) :
    splitSlash (xs ++ '/' :: ys) = splitSlash xs ++ splitSlash ys := by
  induction xs with
  | nil => simp [splitSlash]
  | cons c cs ih =>
    simp only [List.cons_append, splitSlash]
    by_cases hc : c = '/'
    · simp [hc, ih]
    · simp only [hc, if_false]
      have ih2 : splitSlash (cs.append ('/' :: ys)) = splitSlash cs ++ splitSlash ys := ih
      rw [ih2]
      cases hs : splitSlash cs with
      | nil => exact absurd hs (splitSlash_ne_nil cs)
      | cons seg segs => simp

/-- A string without a slash is one piece. -/
theorem splitSlash_of_not_mem (xs : List Char) (h : '/' ∉ xs) : splitSlash xs = [xs] := by
  induction xs with
  | nil => simp [splitSlash]
  | cons c cs ih =>
    simp only [List.mem_cons, not_or] at h
    have hc : c ≠ '/' := fun e => h.1 e.symm
    simp [splitSlash, hc, ih h.2]

/-- A string with a slash splits into at least two pieces. -/
theorem splitSlash_length_of_mem (xs : List Char) (h : '/' ∈ xs) :
    2 ≤ (splitSlash xs).length := by
  induction xs with
  | nil => simp at h
  | cons c cs ih =>
    by_cases hc : c = '/'
    · have := splitSlash_ne_nil cs
      simp only [splitSlash, hc, if_true, List.length_cons]
      have : 0 < (splitSlash cs).length := List.length_pos.mpr this
      omega
    · have hmem : '/' ∈ cs := by
        simp only [List.mem_cons] at h
        rcases h with h | h
        · exact absurd h.symm hc
        · exact h
      have := ih hmem
      simp only [splitSlash, hc, if_false]
      cases hs : splitSlash cs with
      | nil => simp [hs] at this
      | cons seg segs => simpa [hs] using this

/-- Nothing is dropped when the last piece is not empty. -/
theorem dropTrailingEmpty_append_singleton (l : List (List Char)) (x : List Char)
    (hx : x ≠ []) : dropTrailingEmpty (l ++ [x]) = l ++ [x] := by
  induction l with
  | nil => simp [dropTrailingEmpty, hx]
  | cons a rest ih =>
    cases hr : rest ++ [x] with
    | nil => simp at hr
    | cons b bs =>
      simp only [List.cons_append, hr, dropTrailingEmpty]
      rw [← hr, ih]

/-- The segments of the request path `/{id}/status`. -/
theorem pathSegments_status (id : String) :
    pathSegments ("/" ++ id ++ "/status")
      = some (splitSlash id.data ++ [['s', 't', 'a', 't', 'u', 's']]) := by
  have h1 : ("/" ++ id ++ "/status").data = '/' :: (id.data ++ '/' :: "status".data) := by
    simp [String.data_append]
  have h2 : splitSlash "status".data = ["status".data] := by decide
  unfold pathSegments
  rw [h1]
  have h3 : splitSlash ('/' :: (id.data ++ '/' :: "status".data))
      = [] :: (splitSlash id.data ++ ["status".data]) := by
    rw [splitSlash, if_pos rfl, splitSlash_append_slash, h2]
  rw [h3]
  simp only
  rw [dropTrailingEmpty_append_singleton _ _ (by decide)]

/-- A one-segment pattern does not match two or more segments. -/
theorem matchSegments_one_cons_cons (p b d : List Char) (l : List (List Char)) :
    matchSegments [p] (b :: d :: l) = none := by
  have h0 : matchSegments [] (d :: l) = none := by simp [matchSegments]
  rw [matchSegments, h0]
  cases matchSegment p b <;> rfl

/-- A two-segment pattern against segments ending in `x`: it matches exactly
when one segment precedes `x` and both segments match. -/
theorem matchSegments_two_isSome (p1 p2 x : List Char) (l : List (List Char)) :
    (matchSegments [p1, p2] (l ++ [x])).isSome
      = match l with
        | [a] => (matchSegment p1 a).isSome && (matchSegment p2 x).isSome
        | _ => false := by
  have h0 : matchSegments [] [] = some [] := by simp [matchSegments]
  have h1 : ∀ p : List Char, matchSegments [p] [] = none := by
    intro p
    simp [matchSegments]
  cases l with
  | nil =>
    show (matchSegments [p1, p2] [x]).isSome = false
    rw [matchSegments, h1]
    cases matchSegment p1 x <;> rfl
  | cons a l1 =>
    cases l1 with
    | nil =>
      show (matchSegments [p1, p2] [a, x]).isSome
        = ((matchSegment p1 a).isSome && (matchSegment p2 x).isSome)
      rw [matchSegments, matchSegments, h0]
      cases matchSegment p1 a <;> cases matchSegment p2 x <;> rfl
    | cons b l2 =>
      show (matchSegments [p1, p2] (a :: b :: (l2 ++ [x]))).isSome = false
      cases h2 : l2 ++ [x] with
      | nil => simp at h2
      | cons d l3 =>
        rw [matchSegments, matchSegments_one_cons_cons]
        cases matchSegment p1 a <;> rfl

/-- The pattern `/:id/lit` against the path `/{id}/status`: it matches exactly
when `id` is one non-empty segment and `lit` matches `status`. -/
theorem matchPath_id_status (pattern : String) (lit : List Char) (id : String)
    (hpat : pathSegments pattern = some [[':', 'i', 'd'], lit]) :
    (matchPath pattern ("/" ++ id ++ "/status")).isSome
      = (decide (id ≠ "" ∧ '/' ∉ id.data)
          && (matchSegment lit ['s', 't', 'a', 't', 'u', 's']).isSome) := by
  have hid : (id ≠ "") ↔ id.data ≠ [] := by
    constructor
    · intro h e
      exact h (String.ext e)
    · intro h e
      exact h (by rw [e])
  unfold matchPath
  rw [hpat, pathSegments_status]
  show (matchSegments [[':', 'i', 'd'], lit]
    (splitSlash id.data ++ [['s', 't', 'a', 't', 'u', 's']])).isSome = _
  rw [matchSegments_two_isSome]
  by_cases hs : '/' ∈ id.data
  · have hlen := splitSlash_length_of_mem id.data hs
    have hdec : decide (id ≠ "" ∧ '/' ∉ id.data) = false := by simp [hs]
    rw [hdec]
    cases h1 : splitSlash id.data with
    | nil => rfl
    | cons a l1 =>
      cases l1 with
      | nil => simp [h1] at hlen
      | cons b l2 => rfl
  · rw [splitSlash_of_not_mem id.data hs]
    show ((matchSegment [':', 'i', 'd'] id.data).isSome && _) = _
    by_cases he : id.data = []
    · have hdec : decide (id ≠ "" ∧ '/' ∉ id.data) = false := by simp [hid, he]
      rw [hdec, he]
      rfl
    · have hdec : decide (id ≠ "" ∧ '/' ∉ id.data) = true := by simp [hid, he, hs]
      have h1 : (matchSegment [':', 'i', 'd'] id.data).isSome = true := by
        simp [matchSegment, he]
      rw [hdec, h1]

/-- C7: for every id, the routes of the order router whose method and path pattern
match `PUT /{id}/status` are: the route with the chain `auth`, `adminAuth`,
`updateOrderStatus` alone when `id` is a segment (non-empty, without a slash), and
no route otherwise; that route is also the one dispatched.  No route guarded by
`auth` alone matches. -/
theorem put_status_admin_only (id : String) :
    orderRoutes.filter (fun r => routeMatches r .PUT ("/" ++ id ++ "/status"))
      = (if id ≠ "" ∧ '/' ∉ id.data then
          [⟨.PUT, "/:id/status", [.auth, .adminAuth, .updateOrderStatus]⟩] else [])
    ∧ dispatch orderRoutes .PUT ("/" ++ id ++ "/status")
      = (if id ≠ "" ∧ '/' ∉ id.data then
          some ⟨.PUT, "/:id/status", [.auth, .adminAuth, .updateOrderStatus]⟩ else none) := by
  have rpay : routeMatches ⟨.PUT, "/:id/pay", [.auth, .updateOrderPayment]⟩ .PUT
      ("/" ++ id ++ "/status") = false := by
    unfold routeMatches
    rw [matchPath_id_status "/:id/pay" ['p', 'a', 'y'] id (by decide)]
    have : matchSegment ['p', 'a', 'y'] ['s', 't', 'a', 't', 'u', 's'] = none := by decide
    rw [this]
    simp
  have rcancel : routeMatches ⟨.PUT, "/:id/cancel", [.auth, .cancelOrder]⟩ .PUT
      ("/" ++ id ++ "/status") = false := by
    unfold routeMatches
    rw [matchPath_id_status "/:id/cancel" ['c', 'a', 'n', 'c', 'e', 'l'] id (by decide)]
    have : matchSegment ['c', 'a', 'n', 'c', 'e', 'l'] ['s', 't', 'a', 't', 'u', 's']
        = none := by decide
    rw [this]
    simp
  have rstatus : routeMatches ⟨.PUT, "/:id/status", [.auth, .adminAuth, .updateOrderStatus]⟩
      .PUT ("/" ++ id ++ "/status") = decide (id ≠ "" ∧ '/' ∉ id.data) := by
    unfold routeMatches
    rw [matchPath_id_status "/:id/status" ['s', 't', 'a', 't', 'u', 's'] id (by decide)]
    have : matchSegment ['s', 't', 'a', 't', 'u', 's'] ['s', 't', 'a', 't', 'u', 's']
        = some [] := by decide
    rw [this]
    simp [handlesMethod]
  have rget : ∀ (p : String) (hs : List Handler) (q : String),
      routeMatches ⟨.GET, p, hs⟩ .PUT q = false := by
    intro p hs q
    simp [routeMatches, handlesMethod]
  have rpost : ∀ (p : String) (hs : List Handler) (q : String),
      routeMatches ⟨.POST, p, hs⟩ .PUT q = false := by
    intro p hs q
    simp [routeMatches, handlesMethod]
  by_cases h : id ≠ "" ∧ '/' ∉ id.data
  · have hd : decide (id ≠ "" ∧ '/' ∉ id.data) = true := decide_eq_true h
    rw [hd] at rstatus
    rw [if_pos h, if_pos h]
    simp only [orderRoutes, dispatch, List.filter, List.find?, rget, rpost, rpay, rcancel,
      rstatus]
    exact ⟨trivial, trivial⟩
  · have hd : decide (id ≠ "" ∧ '/' ∉ id.data) = false := decide_eq_false h
    rw [hd] at rstatus
    rw [if_neg h, if_neg h]
    simp only [orderRoutes, dispatch, List.filter, List.find?, rget, rpost, rpay, rcancel,
      rstatus]
    exact ⟨trivial, trivial⟩

/-- C6: the request `GET /admin` is taken by the single-order route `/:id`, with
`id = admin` and the chain `auth`, `getOrderById`: that route is registered before
`/admin`, whose chain `auth`, `adminAuth`, `getAllOrders` is not the one dispatched. -/
theorem get_admin_dispatch :
    dispatch orderRoutes .GET "/admin" = some ⟨.GET, "/:id", [.auth, .getOrderById]⟩
    ∧ matchPath "/:id" "/admin" = some [("id", "admin")]
    ∧ routeMatches ⟨.GET, "/admin", [.auth, .adminAuth, .getAllOrders]⟩ .GET "/admin" = true
    ∧ dispatch orderRoutes .GET "/admin"
        ≠ some ⟨.GET, "/admin", [.auth, .adminAuth, .getAllOrders]⟩ := by
  decide

/-! ## Theorems: payment validation -/

/-- The class `[0-9]` is the set of ASCII digits. -/
theorem isDigit09_eq_isDigit (c : Char) : isDigit09 c = c.isDigit := by
  have h1 : (c.val ≥ 48) ↔ 48 ≤ c.toNat := by
    show (48 : UInt32) ≤ c.val ↔ _
    rw [UInt32.le_def, BitVec.le_def]
    rfl
  have h2 : (c.val ≤ 57) ↔ c.toNat ≤ 57 := by
    rw [UInt32.le_def, BitVec.le_def]
    rfl
  unfold isDigit09 Char.isDigit
  simp only [h1, h2]

/-- A quantified class followed by the end of the input matches exactly the
strings of the class whose length, with the `n` characters already taken, lies
within the bounds. -/
theorem matchRep_end (a : Atom) (rest : List Char → Bool) (hnil : rest [] = true)
    (hcons : ∀ c cs, rest (c :: cs) = false) (n : Nat) (s : List Char) (hn : n ≤ a.max) :
    matchRep a rest n s = true
      ↔ (∀ c ∈ s, a.cls c = true) ∧ a.min ≤ n + s.length ∧ n + s.length ≤ a.max := by
  induction s generalizing n with
  | nil => simp [matchRep, hnil, hn]
  | cons c cs ih =>
    simp only [matchRep, hcons, Bool.and_false, Bool.or_false, Bool.and_eq_true,
      decide_eq_true_eq, List.mem_cons, forall_eq_or_imp, List.length_cons]
    by_cases hlt : n < a.max
    · rw [ih (n + 1) hlt]
      constructor
      · rintro ⟨⟨_, hc⟩, hall, h1, h2⟩
        exact ⟨⟨hc, hall⟩, by omega, by omega⟩
      · rintro ⟨⟨hc, hall⟩, h1, h2⟩
        exact ⟨⟨hlt, hc⟩, hall, by omega, by omega⟩
    · constructor
      · rintro ⟨⟨h, _⟩, _⟩
        exact absurd h hlt
      · rintro ⟨_, _, h2⟩
        omega

/-- An anchored pattern of one quantified class `[cls]{min,max}` accepts exactly
the strings of that class with a length within the bounds. -/
theorem regexTest_single (a : Atom) (s : String) :
    regexTest [a] s = true
      ↔ (∀ c ∈ s.data, a.cls c = true) ∧ a.min ≤ s.length ∧ s.length ≤ a.max := by
  unfold regexTest
  rw [matchAtoms, matchRep_end a (matchAtoms []) (by simp [matchAtoms])
    (by intro c cs; simp [matchAtoms]) 0 s.data (Nat.zero_le _)]
  have hlen : s.length = s.data.length := rfl
  rw [Nat.zero_add, hlen]

/-- The entry of `newErrors` under each key is present exactly when the check of
that field fails. -/
theorem hasError_validateFormErrors (p : PaymentInfo) :
    hasError (validateFormErrors p) "cardName" = decide (trim p.cardName = "")
    ∧ hasError (validateFormErrors p) "cardNumber"
        = !regexTest cardNumberRegex (stripWhitespace p.cardNumber)
    ∧ hasError (validateFormErrors p) "expiryMonth" = decide (p.expiryMonth = "")
    ∧ hasError (validateFormErrors p) "expiryYear" = decide (p.expiryYear = "")
    ∧ hasError (validateFormErrors p) "cvv" = !regexTest cvvRegex p.cvv := by
  simp only [validateFormErrors, hasError]
  refine ⟨?_, ?_, ?_, ?_, ?_⟩ <;> split_ifs <;> simp_all

/-- C8: validateForm records a cardNumber error exactly when the card number with
every whitespace character removed is not a string of exactly 16 ASCII digits;
`1234 5678 9012 3456` is accepted, and a 15-digit, a 17-digit and a
letter-containing number are rejected. -/
theorem cardNumber_error_iff :
    (∀ p : PaymentInfo,
      hasError (validateFormErrors p) "cardNumber" = true
        ↔ ¬ ((stripWhitespace p.cardNumber).length = 16
              ∧ ∀ c ∈ (stripWhitespace p.cardNumber).data, c.isDigit = true))
    ∧ hasError (validateFormErrors ⟨"", "1234 5678 9012 3456", "", "", ""⟩) "cardNumber" = false
    ∧ hasError (validateFormErrors ⟨"", "1234 5678 9012 345", "", "", ""⟩) "cardNumber" = true
    ∧ hasError (validateFormErrors ⟨"", "1234 5678 9012 34567", "", "", ""⟩) "cardNumber" = true
    ∧ hasError (validateFormErrors ⟨"", "1234 5678 9012 345a", "", "", ""⟩) "cardNumber" = true := by
  refine ⟨?_, by decide, by decide, by decide, by decide⟩
  intro p
  rw [(hasError_validateFormErrors p).2.1]
  have h := regexTest_single ⟨isDigit09, 16, 16⟩ (stripWhitespace p.cardNumber)
  simp only [isDigit09_eq_isDigit] at h
  have hre : cardNumberRegex = [⟨isDigit09, 16, 16⟩] := rfl
  rw [hre, Bool.not_eq_true', ← Bool.not_eq_true, h]
  constructor
  · rintro hn ⟨hlen, hall⟩
    exact hn ⟨hall, by omega, by omega⟩
  · rintro hn ⟨hall, h1, h2⟩
    exact hn ⟨by omega, hall⟩

/-- C9: validateForm records a cvv error exactly when the cvv, taken as typed with
no whitespace removed, is not a string of exactly 3 or exactly 4 ASCII digits. -/
theorem cvv_error_iff :
    (∀ p : PaymentInfo,
      hasError (validateFormErrors p) "cvv" = true
        ↔ ¬ ((p.cvv.length = 3 ∨ p.cvv.length = 4) ∧ ∀ c ∈ p.cvv.data, c.isDigit = true))
    ∧ hasError (validateFormErrors ⟨"", "", "", "", "123"⟩) "cvv" = false
    ∧ hasError (validateFormErrors ⟨"", "", "", "", "1234"⟩) "cvv" = false
    ∧ hasError (validateFormErrors ⟨"", "", "", "", "12"⟩) "cvv" = true
    ∧ hasError (validateFormErrors ⟨"", "", "", "", "12345"⟩) "cvv" = true
    ∧ hasError (validateFormErrors ⟨"", "", "", "", "12a"⟩) "cvv" = true
    ∧ hasError (validateFormErrors ⟨"", "", "", "", " 123"⟩) "cvv" = true
    ∧ hasError (validateFormErrors ⟨"", "", "", "", "1 23"⟩) "cvv" = true := by
  refine ⟨?_, by decide, by decide, by decide, by decide, by decide, by decide, by decide⟩
  intro p
  rw [(hasError_validateFormErrors p).2.2.2.2]
  have h := regexTest_single ⟨isDigit09, 3, 4⟩ p.cvv
  simp only [isDigit09_eq_isDigit] at h
  have hre : cvvRegex = [⟨isDigit09, 3, 4⟩] := rfl
  rw [hre, Bool.not_eq_true', ← Bool.not_eq_true, h]
  constructor
  · rintro hn ⟨hlen, hall⟩
    exact hn ⟨hall, by omega, by omega⟩
  · rintro hn ⟨hall, h1, h2⟩
    exact hn ⟨by omega, hall⟩

/-- C10, as stated, fails: with the current date in November 2026, a form whose
other fields are valid and whose expiry is `01` / `2026` (both offered by the
selects of the page) has an expiry earlier than the current month, and
validateForm accepts it; so it does for the month `13` and for the year `2025`. -/
theorem validateForm_accepts_expired :
    specExpiryInvalid ⟨"A", "1234 5678 9012 3456", "01", "2026", "123"⟩ 2026 11 = true
    ∧ validateForm ⟨"A", "1234 5678 9012 3456", "01", "2026", "123"⟩ = true
    ∧ "01" ∈ monthOptions
    ∧ 2026 ∈ years 2026
    ∧ specExpiryInvalid ⟨"A", "1234 5678 9012 3456", "13", "2030", "123"⟩ 2026 11 = true
    ∧ validateForm ⟨"A", "1234 5678 9012 3456", "13", "2030", "123"⟩ = true
    ∧ specExpiryInvalid ⟨"A", "1234 5678 9012 3456", "12", "2025", "123"⟩ 2026 11 = true
    ∧ validateForm ⟨"A", "1234 5678 9012 3456", "12", "2025", "123"⟩ = true := by
  decide

/-- C10, amended: validateForm rejects the submission whenever the expiry month
is empty or the expiry year is empty. -/
theorem validateForm_rejects_missing_expiry (p : PaymentInfo)
    (h : p.expiryMonth = "" ∨ p.expiryYear = "") : validateForm p = false := by
  have hm := (hasError_validateFormErrors p).2.2.1
  have hy := (hasError_validateFormErrors p).2.2.2.1
  have hne : validateFormErrors p ≠ [] := by
    intro he
    rw [he] at hm hy
    rcases h with h | h
    · rw [h] at hm
      exact absurd hm (by decide)
    · rw [h] at hy
      exact absurd hy (by decide)
  unfold validateForm
  cases hv : validateFormErrors p with
  | nil => exact absurd hv hne
  | cons e es => rfl

/-- A form with every other field valid and no expiry month is rejected. -/
theorem validateForm_rejects_missing_expiry_witness :
    ((⟨"A", "1234 5678 9012 3456", "", "2026", "123"⟩ : PaymentInfo).expiryMonth = ""
      ∨ (⟨"A", "1234 5678 9012 3456", "", "2026", "123"⟩ : PaymentInfo).expiryYear = "")
    ∧ validateForm ⟨"A", "1234 5678 9012 3456", "", "2026", "123"⟩ = false :=
  ⟨Or.inl rfl,
    validateForm_rejects_missing_expiry ⟨"A", "1234 5678 9012 3456", "", "2026", "123"⟩
      (Or.inl rfl)⟩

/-! ## Theorems: the order of the validation errors -/

/-- The keys recorded by `validateForm` are the fields whose check fails, in the
order of the checks. -/
theorem validateFormErrors_keys (p : PaymentInfo) :
    (validateFormErrors p).map Prod.fst = fieldOrder.filter (fieldCheckFails p) := by
  have h1 : fieldCheckFails p "cardName" = decide (trim p.cardName = "") := by
    simp [fieldCheckFails]
  have h2 : fieldCheckFails p "cardNumber"
      = !regexTest cardNumberRegex (stripWhitespace p.cardNumber) := by
    simp [fieldCheckFails]
  have h3 : fieldCheckFails p "expiryMonth" = decide (p.expiryMonth = "") := by
    simp [fieldCheckFails]
  have h4 : fieldCheckFails p "expiryYear" = decide (p.expiryYear = "") := by
    simp [fieldCheckFails]
  have h5 : fieldCheckFails p "cvv" = !regexTest cvvRegex p.cvv := by
    simp [fieldCheckFails]
  simp only [fieldOrder, List.filter, h1, h2, h3, h4, h5, validateFormErrors]
  by_cases c1 : trim p.cardName = "" <;>
  by_cases c2 : regexTest cardNumberRegex (stripWhitespace p.cardNumber) = true <;>
  by_cases c3 : p.expiryMonth = "" <;>
  by_cases c4 : p.expiryYear = "" <;>
  by_cases c5 : regexTest cvvRegex p.cvv = true <;>
  simp [c1, c2, c3, c4, c5]

/-- C11, as stated, fails: a submission with an empty card name and an empty cvv
(the other fields valid) is rejected with both `cardName` and `cvv` recorded, not
with the first invalid field `cardName` alone. -/
theorem validateForm_reports_all_invalid_fields :
    validateForm ⟨"", "1234 5678 9012 3456", "01", "2030", ""⟩ = false
    ∧ firstInvalidField ⟨"", "1234 5678 9012 3456", "01", "2030", ""⟩ = some "cardName"
    ∧ (validateFormErrors ⟨"", "1234 5678 9012 3456", "01", "2030", ""⟩).map Prod.fst
        = ["cardName", "cvv"]
    ∧ (validateFormErrors ⟨"", "1234 5678 9012 3456", "01", "2030", ""⟩).map Prod.fst
        ≠ ["cardName"] := by
  decide

/-- C11, amended: for every submission, validateForm records an error for every
field whose check fails, in the fixed order cardName, cardNumber, expiryMonth,
expiryYear, cvv; the first key recorded is the first failing field in that
order, and the submission is rejected exactly when there is one. -/
theorem validateForm_reports_in_order (p : PaymentInfo) :
    (validateFormErrors p).map Prod.fst = fieldOrder.filter (fieldCheckFails p)
    ∧ ((validateFormErrors p).map Prod.fst).head? = firstInvalidField p
    ∧ (validateForm p = false ↔ (firstInvalidField p).isSome = true) := by
  have hk := validateFormErrors_keys p
  refine ⟨hk, ?_, ?_⟩
  · rw [hk, firstInvalidField, List.filter_head?]
  · have hlen : validateForm p = decide ((validateFormErrors p).map Prod.fst = []) := by
      unfold validateForm
      cases validateFormErrors p <;> simp
    rw [hlen, hk, firstInvalidField]
    simp [List.find?_isSome, List.filter_eq_nil_iff]

/-! ## Theorems: the checkout draft -/

/-- The comparison `v === s` holds exactly when `v` is the string `s`. -/
theorem strictEqStr_iff (v : Val) (s : String) : strictEqStr v s = true ↔ v = .str s := by
  cases v <;> simp [strictEqStr]

/-- The address found on line 179 is the first saved address whose `_id` is the
selected id. -/
theorem findSavedAddress_eq_obj (saved : List Obj) (id : String) (a : Obj) :
    findSavedAddress saved id = .obj a
      ↔ getField a "_id" = .str id
        ∧ ∃ before after, saved = before ++ a :: after
            ∧ ∀ b ∈ before, getField b "_id" ≠ .str id := by
  unfold findSavedAddress
  cases h : saved.find? (fun addr => strictEqStr (getField addr "_id") id) with
  | none =>
    constructor
    · intro hc
      cases hc
    · rintro ⟨ha, before, after, hs, _⟩
      rw [List.find?_eq_none] at h
      have := h a (by rw [hs]; simp)
      exact absurd ((strictEqStr_iff _ _).mpr ha) this
  | some b =>
    rw [List.find?_eq_some] at h
    simp only [Val.obj.injEq]
    constructor
    · intro hb
      subst hb
      obtain ⟨hp, before, after, hs, hall⟩ := h
      refine ⟨(strictEqStr_iff _ _).mp hp, before, after, hs, ?_⟩
      intro c hc hcid
      have := hall c hc
      rw [(strictEqStr_iff _ _).mpr hcid] at this
      simp at this
    · rintro ⟨ha, before, after, hs, hall⟩
      have h2 : saved.find? (fun addr => strictEqStr (getField addr "_id") id) = some a := by
        rw [List.find?_eq_some]
        refine ⟨(strictEqStr_iff _ _).mpr ha, before, after, hs, ?_⟩
        intro c hc
        have := hall c hc
        cases hq : strictEqStr (getField c "_id") id with
        | false => rfl
        | true => exact absurd ((strictEqStr_iff _ _).mp hq) this
      have h1 : saved.find? (fun addr => strictEqStr (getField addr "_id") id) = some b := by
        rw [List.find?_eq_some]
        exact h
      rw [h1] at h2
      exact Option.some.inj h2

/-- No address is found on line 179 exactly when no saved address has the
selected id. -/
theorem findSavedAddress_eq_undefined (saved : List Obj) (id : String) :
    findSavedAddress saved id = .undefined
      ↔ ∀ a ∈ saved, getField a "_id" ≠ .str id := by
  unfold findSavedAddress
  cases h : saved.find? (fun addr => strictEqStr (getField addr "_id") id) with
  | none =>
    rw [List.find?_eq_none] at h
    constructor
    · intro _ a ha hid
      exact h a ha ((strictEqStr_iff _ _).mpr hid)
    · intro _
      rfl
  | some b =>
    rw [List.find?_eq_some] at h
    obtain ⟨hp, before, after, hs, _⟩ := h
    constructor
    · intro hc
      cases hc
    · intro hall
      exact absurd ((strictEqStr_iff _ _).mp hp) (hall b (by rw [hs]; simp))

/-- C12: the shipping address of the checkout draft stored by `handleSubmit` is
the record returned by `createAddress` when a new address is used and saving is
requested (nothing is stored when `createAddress` rejects), the first saved
address whose `_id` is the selected id when a saved address is used, and
otherwise the object of the shipping form's street, city, state, zipCode,
country and phone, which has no `_id` or `id` property. -/
theorem checkout_shipping_address (createAddress : Obj → Option Obj) (st : CheckoutState) :
    (Checkout.handleSubmit createAddress st).checkoutData.map (·.shippingAddress)
      = (if st.useNewAddress && st.saveAddress then
          (createAddress (newAddressData st.shippingAddress)).map Val.obj
        else if !st.useNewAddress then
          some (findSavedAddress st.savedAddresses st.selectedAddressId)
        else
          some (.obj [ ("street", .str st.shippingAddress.street),
                       ("city", .str st.shippingAddress.city),
                       ("state", .str st.shippingAddress.state),
                       ("zipCode", .str st.shippingAddress.zipCode),
                       ("country", .str st.shippingAddress.country),
                       ("phone", .str st.shippingAddress.phone) ]))
    ∧ (∀ a : Obj, findSavedAddress st.savedAddresses st.selectedAddressId = .obj a
        ↔ getField a "_id" = .str st.selectedAddressId
          ∧ ∃ before after, st.savedAddresses = before ++ a :: after
              ∧ ∀ b ∈ before, getField b "_id" ≠ .str st.selectedAddressId)
    ∧ hasField (addressLiteral st.shippingAddress) "_id" = false
    ∧ hasField (addressLiteral st.shippingAddress) "id" = false := by
  refine ⟨?_, fun a => findSavedAddress_eq_obj _ _ a, rfl, rfl⟩
  unfold Checkout.handleSubmit
  by_cases h1 : (st.useNewAddress && st.saveAddress) = true
  · rw [if_pos h1, if_pos h1]
    cases createAddress (newAddressData st.shippingAddress) <;> rfl
  · rw [if_neg h1, if_neg h1]
    by_cases h2 : (!st.useNewAddress) = true
    · rw [if_pos h2, if_pos h2]
      rfl
    · rw [if_neg h2, if_neg h2]
      rfl

/-- C13: `handleSubmit` calls `createAddress` exactly when a new address is used
and saving is requested, once, with the shipping form's fields and
`isDefault = false`; with a saved address selected or with saving off it makes
no call. -/
theorem createAddress_only_when_saving (createAddress : Obj → Option Obj)
    (st : CheckoutState) :
    (Checkout.handleSubmit createAddress st).createAddressCalls
      = (if st.useNewAddress && st.saveAddress then [newAddressData st.shippingAddress]
         else [])
    ∧ getField (newAddressData st.shippingAddress) "isDefault" = .bool false
    ∧ ∀ request ∈ (Checkout.handleSubmit createAddress st).createAddressCalls,
        getField request "isDefault" = .bool false := by
  have hcalls : (Checkout.handleSubmit createAddress st).createAddressCalls
      = (if st.useNewAddress && st.saveAddress then [newAddressData st.shippingAddress]
         else []) := by
    unfold Checkout.handleSubmit
    by_cases h1 : (st.useNewAddress && st.saveAddress) = true
    · rw [if_pos h1, if_pos h1]
      cases createAddress (newAddressData st.shippingAddress) <;> rfl
    · rw [if_neg h1, if_neg h1]
      by_cases h2 : (!st.useNewAddress) = true
      · rw [if_pos h2]
      · rw [if_neg h2]
  refine ⟨hcalls, rfl, ?_⟩
  rw [hcalls]
  intro request hmem
  by_cases h1 : (st.useNewAddress && st.saveAddress) = true
  · rw [if_pos h1, List.mem_singleton] at hmem
    rw [hmem]
    rfl
  · rw [if_neg h1] at hmem
    cases hmem

/-- C14, as stated, fails: with a saved address selected whose id `a1` matches
none of the saved addresses, `handleSubmit` stores a checkout draft, with an
undefined shipping address, proceeds to the payment page and reports nothing. -/
theorem checkout_unmatched_address_stores_draft :
    findSavedAddress [[("_id", .str "b2"), ("street", .str "1 Main St")]] "a1" = .undefined
    ∧ (Checkout.handleSubmit (fun _ => none)
        ⟨[line 100 1], [[("_id", .str "b2"), ("street", .str "1 Main St")]], "a1", false,
          ⟨"", "", "", "", "", "", "India", ""⟩, ⟨"", "", "", "", "", "", "India", ""⟩,
          true, "standard", true⟩).checkoutData.isSome = true
    ∧ (Checkout.handleSubmit (fun _ => none)
        ⟨[line 100 1], [[("_id", .str "b2"), ("street", .str "1 Main St")]], "a1", false,
          ⟨"", "", "", "", "", "", "India", ""⟩, ⟨"", "", "", "", "", "", "India", ""⟩,
          true, "standard", true⟩).checkoutData.map (·.shippingAddress) = some .undefined
    ∧ (Checkout.handleSubmit (fun _ => none)
        ⟨[line 100 1], [[("_id", .str "b2"), ("street", .str "1 Main St")]], "a1", false,
          ⟨"", "", "", "", "", "", "India", ""⟩, ⟨"", "", "", "", "", "", "India", ""⟩,
          true, "standard", true⟩).navigatedTo = some "/payment"
    ∧ (Checkout.handleSubmit (fun _ => none)
        ⟨[line 100 1], [[("_id", .str "b2"), ("street", .str "1 Main St")]], "a1", false,
          ⟨"", "", "", "", "", "", "India", ""⟩, ⟨"", "", "", "", "", "", "India", ""⟩,
          true, "standard", true⟩).alerted = false := by
  refine ⟨rfl, rfl, rfl, rfl, rfl⟩

/-- C14, amended: when a saved address is selected and the selected id matches
none of the saved addresses, `handleSubmit` raises no error: it stores a checkout
draft whose shipping address is undefined and proceeds to the payment page. -/
theorem checkout_unmatched_address (createAddress : Obj → Option Obj) (st : CheckoutState)
    (hsaved : st.useNewAddress = false)
    (hnone : ∀ a ∈ st.savedAddresses, getField a "_id" ≠ .str st.selectedAddressId) :
    (Checkout.handleSubmit createAddress st).checkoutData.isSome = true
    ∧ (Checkout.handleSubmit createAddress st).checkoutData.map (·.shippingAddress)
        = some .undefined
    ∧ (Checkout.handleSubmit createAddress st).navigatedTo = some "/payment"
    ∧ (Checkout.handleSubmit createAddress st).alerted = false := by
  have hfind := (findSavedAddress_eq_undefined st.savedAddresses st.selectedAddressId).mpr hnone
  unfold Checkout.handleSubmit
  simp only [hsaved, Bool.false_and, Bool.not_false, if_true, if_false, Bool.false_eq_true,
    Option.isSome_some, Option.map_some', checkoutDataOf, hfind]
  exact ⟨trivial, trivial, trivial, trivial⟩

/-- A saved address is selected and its id `a1` is not among the saved ones. -/
theorem checkout_unmatched_address_witness :
    (Checkout.handleSubmit (fun _ => none)
      ⟨[line 100 1], [[("_id", .str "b2")]], "a1", false,
        ⟨"", "", "", "", "", "", "India", ""⟩, ⟨"", "", "", "", "", "", "India", ""⟩,
        true, "standard", true⟩).checkoutData.isSome = true
    ∧ (Checkout.handleSubmit (fun _ => none)
      ⟨[line 100 1], [[("_id", .str "b2")]], "a1", false,
        ⟨"", "", "", "", "", "", "India", ""⟩, ⟨"", "", "", "", "", "", "India", ""⟩,
        true, "standard", true⟩).checkoutData.map (·.shippingAddress) = some .undefined
    ∧ (Checkout.handleSubmit (fun _ => none)
      ⟨[line 100 1], [[("_id", .str "b2")]], "a1", false,
        ⟨"", "", "", "", "", "", "India", ""⟩, ⟨"", "", "", "", "", "", "India", ""⟩,
        true, "standard", true⟩).navigatedTo = some "/payment"
    ∧ (Checkout.handleSubmit (fun _ => none)
      ⟨[line 100 1], [[("_id", .str "b2")]], "a1", false,
        ⟨"", "", "", "", "", "", "India", ""⟩, ⟨"", "", "", "", "", "", "India", ""⟩,
        true, "standard", true⟩).alerted = false :=
  checkout_unmatched_address (fun _ => none)
    ⟨[line 100 1], [[("_id", .str "b2")]], "a1", false,
      ⟨"", "", "", "", "", "", "India", ""⟩, ⟨"", "", "", "", "", "", "India", ""⟩,
      true, "standard", true⟩
    rfl
    (by
      intro a ha
      simp only [List.mem_singleton] at ha
      subst ha
      simp [getField])

/-- C15: in the checkout draft stored by `handleSubmit`, the billing address is
the draft's shipping address when "same as shipping" is set, and otherwise the
object of the billing form's street, city, state, zipCode, country and phone,
whatever the shipping address is. -/
theorem checkout_billing_address (createAddress : Obj → Option Obj) (st : CheckoutState)
    (draft : CheckoutData)
    (hdraft : (Checkout.handleSubmit createAddress st).checkoutData = some draft) :
    draft.billingAddress
      = if st.sameAsShipping then draft.shippingAddress
        else .obj [ ("street", .str st.billingAddress.street),
                    ("city", .str st.billingAddress.city),
                    ("state", .str st.billingAddress.state),
                    ("zipCode", .str st.billingAddress.zipCode),
                    ("country", .str st.billingAddress.country),
                    ("phone", .str st.billingAddress.phone) ] := by
  have key : ∀ addressToUse : Val,
      (checkoutDataOf st addressToUse).billingAddress
        = if st.sameAsShipping then (checkoutDataOf st addressToUse).shippingAddress
          else .obj (addressLiteral st.billingAddress) := fun _ => rfl
  unfold Checkout.handleSubmit at hdraft
  by_cases h1 : (st.useNewAddress && st.saveAddress) = true
  · rw [if_pos h1] at hdraft
    cases hc : createAddress (newAddressData st.shippingAddress) with
    | none =>
      rw [hc] at hdraft
      cases hdraft
    | some rec =>
      rw [hc] at hdraft
      have := Option.some.inj hdraft
      rw [← this]
      exact key _
  · rw [if_neg h1] at hdraft
    by_cases h2 : (!st.useNewAddress) = true
    · rw [if_pos h2] at hdraft
      have := Option.some.inj hdraft
      rw [← this]
      exact key _
    · rw [if_neg h2] at hdraft
      have := Option.some.inj hdraft
      rw [← this]
      exact key _

/-- A new, unsaved shipping address with a separate billing form: the draft's
billing address is the billing form's, not the shipping address. -/
theorem checkout_billing_address_witness :
    (checkoutDataOf
        ⟨[line 100 1], [], "", true,
          ⟨"A", "B", "1 Main St", "Pune", "MH", "411001", "India", "1"⟩,
          ⟨"A", "B", "2 Side St", "Goa", "GA", "403001", "India", "2"⟩,
          false, "standard", false⟩
        (.obj (addressLiteral ⟨"A", "B", "1 Main St", "Pune", "MH", "411001", "India", "1"⟩))
      ).billingAddress
      = .obj [ ("street", .str "2 Side St"), ("city", .str "Goa"), ("state", .str "GA"),
               ("zipCode", .str "403001"), ("country", .str "India"), ("phone", .str "2") ] :=
  checkout_billing_address (fun _ => none)
    ⟨[line 100 1], [], "", true,
      ⟨"A", "B", "1 Main St", "Pune", "MH", "411001", "India", "1"⟩,
      ⟨"A", "B", "2 Side St", "Goa", "GA", "403001", "India", "2"⟩,
      false, "standard", false⟩
    _ rfl

/-- C16, as stated, fails: run on an empty cart (a new address that is not
saved), `handleSubmit` stores a checkout draft, with no order items, and
proceeds to the payment page; it reports nothing. -/
theorem checkout_handleSubmit_empty_cart_stores_draft :
    (Checkout.handleSubmit (fun _ => none)
        ⟨[], [], "", true, ⟨"", "", "", "", "", "", "India", ""⟩,
          ⟨"", "", "", "", "", "", "India", ""⟩, true, "standard", false⟩).checkoutData.isSome
      = true
    ∧ (Checkout.handleSubmit (fun _ => none)
        ⟨[], [], "", true, ⟨"", "", "", "", "", "", "India", ""⟩,
          ⟨"", "", "", "", "", "", "India", ""⟩, true, "standard", false⟩).checkoutData.map
        (·.orderItems) = some []
    ∧ (Checkout.handleSubmit (fun _ => none)
        ⟨[], [], "", true, ⟨"", "", "", "", "", "", "India", ""⟩,
          ⟨"", "", "", "", "", "", "India", ""⟩, true, "standard", false⟩).navigatedTo
      = some "/payment"
    ∧ (Checkout.handleSubmit (fun _ => none)
        ⟨[], [], "", true, ⟨"", "", "", "", "", "", "India", ""⟩,
          ⟨"", "", "", "", "", "", "India", ""⟩, true, "standard", false⟩).alerted
      = false := by
  refine ⟨rfl, rfl, rfl, rfl⟩

/-- C16, amended: `handleSubmit` has no cart check and raises no empty-cart
error: run with an empty cart, and unless `createAddress` rejects, it stores a
checkout draft with zero order items and proceeds to the payment page; for that
cart the component returns the empty-cart notice instead of the page with the
form. -/
theorem checkout_handleSubmit_empty_cart (createAddress : Obj → Option Obj)
    (st : CheckoutState) (hcart : st.cart = [])
    (hcreate : (st.useNewAddress && st.saveAddress) = true →
      (createAddress (newAddressData st.shippingAddress)).isSome = true) :
    (Checkout.handleSubmit createAddress st).checkoutData.map (·.orderItems) = some []
    ∧ (Checkout.handleSubmit createAddress st).navigatedTo = some "/payment"
    ∧ (Checkout.handleSubmit createAddress st).alerted = false
    ∧ Checkout.render st = .emptyCartNotice := by
  have hitems : ∀ addressToUse : Val, (checkoutDataOf st addressToUse).orderItems = [] := by
    intro addressToUse
    simp [checkoutDataOf, orderItemsOf, hcart]
  have hrender : Checkout.render st = .emptyCartNotice := by
    simp [Checkout.render, hcart]
  unfold Checkout.handleSubmit
  by_cases h1 : (st.useNewAddress && st.saveAddress) = true
  · rw [if_pos h1]
    cases hc : createAddress (newAddressData st.shippingAddress) with
    | none =>
      have := hcreate h1
      rw [hc] at this
      cases this
    | some rec =>
      exact ⟨congrArg some (hitems _), rfl, rfl, hrender⟩
  · rw [if_neg h1]
    by_cases h2 : (!st.useNewAddress) = true
    · rw [if_pos h2]
      exact ⟨congrArg some (hitems _), rfl, rfl, hrender⟩
    · rw [if_neg h2]
      exact ⟨congrArg some (hitems _), rfl, rfl, hrender⟩

/-- An empty cart, a new address that is saved, `createAddress` resolving. -/
theorem checkout_handleSubmit_empty_cart_witness :
    (Checkout.handleSubmit (fun request => some (("_id", .str "a9") :: request))
        ⟨[], [], "", true, ⟨"", "", "1 Main St", "Pune", "MH", "411001", "India", ""⟩,
          ⟨"", "", "", "", "", "", "India", ""⟩, true, "standard", true⟩).checkoutData.map
        (·.orderItems) = some []
    ∧ (Checkout.handleSubmit (fun request => some (("_id", .str "a9") :: request))
        ⟨[], [], "", true, ⟨"", "", "1 Main St", "Pune", "MH", "411001", "India", ""⟩,
          ⟨"", "", "", "", "", "", "India", ""⟩, true, "standard", true⟩).navigatedTo
      = some "/payment"
    ∧ (Checkout.handleSubmit (fun request => some (("_id", .str "a9") :: request))
        ⟨[], [], "", true, ⟨"", "", "1 Main St", "Pune", "MH", "411001", "India", ""⟩,
          ⟨"", "", "", "", "", "", "India", ""⟩, true, "standard", true⟩).alerted = false
    ∧ Checkout.render
        ⟨[], [], "", true, ⟨"", "", "1 Main St", "Pune", "MH", "411001", "India", ""⟩,
          ⟨"", "", "", "", "", "", "India", ""⟩, true, "standard", true⟩ = .emptyCartNotice :=
  checkout_handleSubmit_empty_cart (fun request => some (("_id", .str "a9") :: request))
    ⟨[], [], "", true, ⟨"", "", "1 Main St", "Pune", "MH", "411001", "India", ""⟩,
      ⟨"", "", "", "", "", "", "India", ""⟩, true, "standard", true⟩
    rfl (fun _ => rfl)

/-! ## Theorems: the order-creation request -/

/-- When the form is valid and the checkout data is present, `handleSubmit` of
`Payment.jsx` sends `orderData`; otherwise it sends nothing. -/
theorem payment_request (post : Val → PostOutcome) (st : PaymentState) :
    (Payment.handleSubmit post st).request
      = match validateForm st.paymentInfo, st.checkoutData with
        | true, some checkoutData => some (orderData checkoutData st.paymentMethod)
        | _, _ => none := by
  unfold Payment.handleSubmit
  cases hv : validateForm st.paymentInfo with
  | false => rfl
  | true =>
    cases hc : st.checkoutData with
    | none => rfl
    | some checkoutData =>
      simp only
      split <;> rfl

/-- C17, as stated, fails: for a valid form and a draft with a billing address,
the body sent by `handleSubmit` has no `billingAddress` and no `shippingCost`
property; the draft's shipping cost (300) is sent under the name `shipping`. -/
theorem payment_request_lacks_billing :
    (Payment.handleSubmit (fun _ => .rejected [])
        ⟨[line 100 1],
          some ⟨[⟨"p1", "Pen", "pen.png", 100, 1⟩], .obj [("street", .str "1 Main St")],
            .obj [("street", .str "2 Side St")], "standard", 300, 100, 18, 418⟩,
          "creditCard", ⟨"A", "1234 5678 9012 3456", "01", "2030", "123"⟩, false⟩).request.map
      (fun body => (hasField body "billingAddress", hasField body "shippingCost",
        hasField body "shipping", hasField body "orderLines", hasField body "orderItems"))
      = some (false, false, true, false, true)
    ∧ getField (orderData
          ⟨[⟨"p1", "Pen", "pen.png", 100, 1⟩], .obj [("street", .str "1 Main St")],
            .obj [("street", .str "2 Side St")], "standard", 300, 100, 18, 418⟩ "creditCard")
        "shipping" = .num 300
    ∧ getField (orderData
          ⟨[⟨"p1", "Pen", "pen.png", 100, 1⟩], .obj [("street", .str "1 Main St")],
            .obj [("street", .str "2 Side St")], "standard", 300, 100, 18, 418⟩ "creditCard")
        "billingAddress" = .undefined := by
  refine ⟨by decide, rfl, rfl⟩

/-- C17, amended: for every checkout draft and every valid form, the body sent
by `handleSubmit` of `Payment.jsx` has exactly the properties `orderItems`,
`shippingAddress`, `paymentMethod`, `subtotal`, `tax`, `shipping` and `total`:
the draft's order items, shipping address, subtotal, tax and total under those
names, the chosen payment method, and the draft's shipping cost under the name
`shipping`. -/
theorem payment_request_body (post : Val → PostOutcome) (st : PaymentState)
    (draft : CheckoutData) (hvalid : validateForm st.paymentInfo = true)
    (hdraft : st.checkoutData = some draft) :
    (Payment.handleSubmit post st).request
      = some [ ("orderItems", .arr (draft.orderItems.map orderItemVal)),
               ("shippingAddress", draft.shippingAddress),
               ("paymentMethod", .str st.paymentMethod),
               ("subtotal", .num draft.subtotal),
               ("tax", .num draft.tax),
               ("shipping", .num draft.shippingCost),
               ("total", .num draft.total) ] := by
  rw [payment_request, hvalid, hdraft]
  rfl

/-- A valid form and a draft of one order item. -/
theorem payment_request_body_witness :
    (Payment.handleSubmit (fun _ => .rejected [])
        ⟨[line 100 1],
          some ⟨[⟨"p1", "Pen", "pen.png", 100, 1⟩], .obj [("street", .str "1 Main St")],
            .obj [("street", .str "2 Side St")], "standard", 300, 100, 18, 418⟩,
          "creditCard", ⟨"A", "1234 5678 9012 3456", "01", "2030", "123"⟩, false⟩).request
      = some [ ("orderItems", .arr [.obj [ ("product", .str "p1"), ("name", .str "Pen"),
                  ("image", .str "pen.png"), ("price", .num 100), ("quantity", .num 1) ]]),
               ("shippingAddress", .obj [("street", .str "1 Main St")]),
               ("paymentMethod", .str "creditCard"),
               ("subtotal", .num 100),
               ("tax", .num 18),
               ("shipping", .num 300),
               ("total", .num 418) ] :=
  payment_request_body (fun _ => .rejected [])
    ⟨[line 100 1],
      some ⟨[⟨"p1", "Pen", "pen.png", 100, 1⟩], .obj [("street", .str "1 Main St")],
        .obj [("street", .str "2 Side St")], "standard", 300, 100, 18, 418⟩,
      "creditCard", ⟨"A", "1234 5678 9012 3456", "01", "2030", "123"⟩, false⟩
    _ (by decide) rfl

/-- C18: two valid payment forms with the same checkout draft and payment method
make `handleSubmit` send the same body, whatever the card name, card number,
expiry and cvv are (and whatever the cart, the processing flag and the server's
answer are); the body has none of the properties `cardName`, `cardNumber`,
`expiryMonth`, `expiryYear`, `cvv`. -/
theorem payment_request_ignores_card (post₁ post₂ : Val → PostOutcome)
    (st₁ st₂ : PaymentState) (draft : CheckoutData)
    (hvalid₁ : validateForm st₁.paymentInfo = true)
    (hvalid₂ : validateForm st₂.paymentInfo = true)
    (hdraft₁ : st₁.checkoutData = some draft) (hdraft₂ : st₂.checkoutData = some draft)
    (hmethod : st₁.paymentMethod = st₂.paymentMethod) :
    (Payment.handleSubmit post₁ st₁).request = (Payment.handleSubmit post₂ st₂).request
    ∧ (Payment.handleSubmit post₁ st₁).request.map
        (fun body => fieldOrder.map (hasField body))
      = some [false, false, false, false, false] := by
  rw [payment_request, payment_request, hvalid₁, hvalid₂, hdraft₁, hdraft₂, hmethod]
  exact ⟨rfl, rfl⟩

/-- Two valid forms with different cards and the same draft. -/
theorem payment_request_ignores_card_witness :
    (Payment.handleSubmit (fun _ => .rejected [])
        ⟨[line 100 1],
          some ⟨[⟨"p1", "Pen", "pen.png", 100, 1⟩], .obj [("street", .str "1 Main St")],
            .obj [("street", .str "1 Main St")], "standard", 300, 100, 18, 418⟩,
          "creditCard", ⟨"A", "1234 5678 9012 3456", "01", "2030", "123"⟩, false⟩).request
      = (Payment.handleSubmit (fun _ => .resolved [])
        ⟨[],
          some ⟨[⟨"p1", "Pen", "pen.png", 100, 1⟩], .obj [("street", .str "1 Main St")],
            .obj [("street", .str "1 Main St")], "standard", 300, 100, 18, 418⟩,
          "creditCard", ⟨"B", "9999000011112222", "12", "2031", "4321"⟩, true⟩).request
    ∧ (Payment.handleSubmit (fun _ => .rejected [])
        ⟨[line 100 1],
          some ⟨[⟨"p1", "Pen", "pen.png", 100, 1⟩], .obj [("street", .str "1 Main St")],
            .obj [("street", .str "1 Main St")], "standard", 300, 100, 18, 418⟩,
          "creditCard", ⟨"A", "1234 5678 9012 3456", "01", "2030", "123"⟩, false⟩).request.map
        (fun body => fieldOrder.map (hasField body))
      = some [false, false, false, false, false] :=
  payment_request_ignores_card (fun _ => .rejected []) (fun _ => .resolved [])
    ⟨[line 100 1],
      some ⟨[⟨"p1", "Pen", "pen.png", 100, 1⟩], .obj [("street", .str "1 Main St")],
        .obj [("street", .str "1 Main St")], "standard", 300, 100, 18, 418⟩,
      "creditCard", ⟨"A", "1234 5678 9012 3456", "01", "2030", "123"⟩, false⟩
    ⟨[],
      some ⟨[⟨"p1", "Pen", "pen.png", 100, 1⟩], .obj [("street", .str "1 Main St")],
        .obj [("street", .str "1 Main St")], "standard", 300, 100, 18, 418⟩,
      "creditCard", ⟨"B", "9999000011112222", "12", "2031", "4321"⟩, true⟩
    _ (by decide) (by decide) rfl rfl rfl

/-! ## Theorems: the `createOrder` wrapper -/

/-- C19: `createOrder` always resolves with an object that has a boolean
`success`.  When the POST resolves with `response` the result is
`{success: true, data: response.data}`; when it rejects with `error` the result
is `{success: false, error: m}`, where `m` is `error.response?.data?.message` if
that value is truthy and `Failed to create order` otherwise: a non-empty string
message is passed on, a missing or empty one is replaced. -/
theorem createOrder_result (post : Val → PostOutcome) (orderData : Val) :
    (∃ b rest, createOrder post orderData = .obj (("success", .bool b) :: rest))
    ∧ (∀ response, post orderData = .resolved response →
        createOrder post orderData
          = .obj [("success", .bool true), ("data", getField response "data")])
    ∧ (∀ error, post orderData = .rejected error →
        createOrder post orderData
          = .obj [("success", .bool false),
                  ("error", if truthy (errorMessage error) then errorMessage error
                            else .str "Failed to create order")])
    ∧ (∀ error s, post orderData = .rejected error → errorMessage error = .str s → s ≠ "" →
        createOrder post orderData = .obj [("success", .bool false), ("error", .str s)])
    ∧ (∀ error, post orderData = .rejected error →
        errorMessage error = .undefined ∨ errorMessage error = .null
          ∨ errorMessage error = .str "" →
        createOrder post orderData
          = .obj [("success", .bool false), ("error", .str "Failed to create order")]) := by
  have hrej : ∀ error, post orderData = .rejected error →
      createOrder post orderData
        = .obj [("success", .bool false),
                ("error", if truthy (errorMessage error) then errorMessage error
                          else .str "Failed to create order")] := by
    intro error h
    unfold createOrder
    rw [h]
    rfl
  refine ⟨?_, ?_, hrej, ?_, ?_⟩
  · unfold createOrder
    cases post orderData with
    | resolved response => exact ⟨true, _, rfl⟩
    | rejected error => exact ⟨false, _, rfl⟩
  · intro response h
    unfold createOrder
    rw [h]
  · intro error s h hm hs
    rw [hrej error h, hm]
    simp [truthy, hs]
  · intro error h hm
    rw [hrej error h]
    rcases hm with hm | hm | hm <;> rw [hm] <;> simp [truthy]

/-- The POST rejected with a server message, rejected without a response, and
resolved. -/
theorem createOrder_result_witness :
    createOrder (fun _ => .rejected
        [("response", .obj [("data", .obj [("message", .str "Cart is empty")])])]) .null
      = .obj [("success", .bool false), ("error", .str "Cart is empty")]
    ∧ createOrder (fun _ => .rejected [("message", .str "Network Error")]) .null
      = .obj [("success", .bool false), ("error", .str "Failed to create order")]
    ∧ createOrder (fun _ => .resolved [("status", .num 201), ("data", .obj [("_id", .str "o1")])])
        .null
      = .obj [("success", .bool true), ("data", .obj [("_id", .str "o1")])] :=
  ⟨(createOrder_result (fun _ => .rejected
        [("response", .obj [("data", .obj [("message", .str "Cart is empty")])])]) .null).2.2.2.1
      _ "Cart is empty" rfl rfl (by decide),
   (createOrder_result (fun _ => .rejected [("message", .str "Network Error")]) .null).2.2.2.2
      _ rfl (Or.inl rfl),
   (createOrder_result
      (fun _ => .resolved [("status", .num 201), ("data", .obj [("_id", .str "o1")])])
      .null).2.1 _ rfl⟩

/-! ## Theorems: the totals of the payment page -/

/-- C20 fails on the code when a value of the checkout data is 0.  With checkout
data present and holding subtotal 1000, shipping cost 0, tax 180 and total 1180,
the page shows shipping 300, not the stored 0.  With the draft that Checkout
stores for a cart of one free item under express shipping (subtotal 0, shipping
500, tax 0, total 500) and a cart that now holds one item of price 2000, the
page shows subtotal 2000 and tax 360, calculated from the cart although checkout
data is present. -/
theorem paymentTotals_zero_falls_back :
    paymentTotals (some ⟨[], .undefined, .undefined, "standard", 0, 1000, 180, 1180⟩)
        [line 1000 1]
      = ⟨1000, 300, 180, 1180⟩
    ∧ (computePricing [line 0 1] "express" = ⟨0, 500, 0, 500⟩
      ∧ paymentTotals
          (some (checkoutDataOf
            ⟨[line 0 1], [], "", true, ⟨"", "", "", "", "", "", "India", ""⟩,
              ⟨"", "", "", "", "", "", "India", ""⟩, true, "express", false⟩
            (.obj (addressLiteral ⟨"", "", "", "", "", "", "India", ""⟩))))
          [line 2000 1]
        = ⟨2000, 500, 360, 500⟩) := by
  refine ⟨by decide, ?_, ?_⟩
  · simp [computePricing, shippingCost, subtotal, tax, line]
  · simp [paymentTotals, numOr, checkoutDataOf, computePricing, shippingCost, subtotal, tax,
      line]
    norm_num

/-! ## Theorems: `formatCardNumber` -/

/-- A digit is not a whitespace character. -/
theorem isWhiteSpace_of_isDigit09 (c : Char) (h : isDigit09 c = true) :
    isWhiteSpace c = false := by
  simp only [isDigit09, Bool.and_eq_true, decide_eq_true_eq] at h
  simp only [isWhiteSpace, Bool.or_eq_false_iff, Bool.and_eq_false_imp, decide_eq_false_iff_not,
    decide_eq_true_eq]
  omega

/-- The space that joins the groups is a whitespace character and not a digit. -/
theorem space_class : isWhiteSpace ' ' = true ∧ isDigit09 ' ' = false := by
  decide

/-- Line 92: `v` is the list of the digits of the input, in order. -/
theorem removeNonDigits_stripWhitespace (x : String) :
    (removeNonDigits (stripWhitespace x)).data = x.data.filter isDigit09 := by
  simp only [removeNonDigits, stripWhitespace, List.filter_filter]
  congr 1
  funext c
  cases h : isDigit09 c with
  | false => rfl
  | true => simp [isWhiteSpace_of_isDigit09 c h]

/-- On a string of digits the pattern `\d{4,16}` matches at the start exactly
when there are at least 4 digits, and takes the first 16. -/
theorem matchAt_digits (d : List Char) (hd : ∀ c ∈ d, isDigit09 c = true) :
    matchAt digitRunRegex d = if 4 ≤ d.length then some (d.take 16) else none := by
  have htw : d.takeWhile isDigit09 = d := List.takeWhile_eq_self_iff.mpr hd
  simp only [matchAt, digitRunRegex, htw, List.length_take]
  by_cases h : 4 ≤ d.length
  · have h2 : 4 ≤ min 16 d.length := by omega
    rw [if_pos h, if_pos h2]
  · have h2 : ¬ 4 ≤ min 16 d.length := by omega
    rw [if_neg h, if_neg h2]

/-- A string of fewer than 4 digits has no match. -/
theorem matchGlobal_short (d : List Char) (hd : ∀ c ∈ d, isDigit09 c = true)
    (hlen : d.length < 4) : matchGlobal digitRunRegex 0 d = [] := by
  induction d with
  | nil =>
    rw [matchGlobal, matchAt_digits [] hd]
    rfl
  | cons c cs ih =>
    have hcs : ∀ x ∈ cs, isDigit09 x = true := fun x hx => hd x (List.mem_cons_of_mem c hx)
    have hl : cs.length < 4 := by
      simp only [List.length_cons] at hlen
      omega
    rw [matchGlobal, matchAt_digits (c :: cs) hd, if_neg (by omega)]
    exact ih hcs hl

/-- Lines 93-94: on a string of digits, `match` is the first 16 digits when
there are at least 4 and the empty string otherwise. -/
theorem firstMatch_digits (d : List Char) (hd : ∀ c ∈ d, isDigit09 c = true) :
    firstMatch (matchGlobal digitRunRegex 0 d) = if 4 ≤ d.length then d.take 16 else [] := by
  by_cases h : 4 ≤ d.length
  · rw [if_pos h]
    cases d with
    | nil => simp at h
    | cons c cs =>
      rw [matchGlobal, matchAt_digits (c :: cs) hd, if_pos h]
      rfl
  · rw [if_neg h, matchGlobal_short d hd (by omega)]
    rfl

/-- The loop of lines 97-99 on five or more characters: the first four, then
the loop on the rest. -/
theorem cardParts_cons5 (a b c d e : Char) (rest : List Char) :
    cardParts (a :: b :: c :: d :: e :: rest) = [a, b, c, d] :: cardParts (e :: rest) := by
  have hlen : ((a :: b :: c :: d :: e :: rest).length + 3) / 4
      = ((e :: rest).length + 3) / 4 + 1 := by
    simp only [List.length_cons]
    omega
  unfold cardParts
  rw [hlen, List.range_succ_eq_map, List.map_cons, List.map_map]
  congr 1

/-- The loop of lines 97-99 cuts `match` into consecutive groups of 4. -/
theorem cardParts_eq_groupsOf4 : ∀ m : List Char, cardParts m = groupsOf4 m
  | [] => by simp [cardParts, groupsOf4]
  | [a] => by simp [cardParts, groupsOf4, List.range_succ_eq_map]
  | [a, b] => by simp [cardParts, groupsOf4, List.range_succ_eq_map]
  | [a, b, c] => by simp [cardParts, groupsOf4, List.range_succ_eq_map]
  | [a, b, c, d] => by simp [cardParts, groupsOf4, List.range_succ_eq_map]
  | a :: b :: c :: d :: e :: rest => by
    rw [cardParts_cons5, groupsOf4, cardParts_eq_groupsOf4 (e :: rest)]

/-- The groups put together give the string back. -/
theorem groupsOf4_flatten : ∀ m : List Char, (groupsOf4 m).flatten = m
  | [] => by simp [groupsOf4]
  | [a] => by simp [groupsOf4]
  | [a, b] => by simp [groupsOf4]
  | [a, b, c] => by simp [groupsOf4]
  | [a, b, c, d] => by simp [groupsOf4]
  | a :: b :: c :: d :: e :: rest => by
    rw [groupsOf4, List.flatten_cons, groupsOf4_flatten (e :: rest)]
    rfl

/-- There is no group exactly when the string is empty. -/
theorem groupsOf4_length_eq_zero : ∀ m : List Char, (groupsOf4 m).length = 0 ↔ m = []
  | [] => by simp [groupsOf4]
  | [a] => by simp [groupsOf4]
  | [a, b] => by simp [groupsOf4]
  | [a, b, c] => by simp [groupsOf4]
  | [a, b, c, d] => by simp [groupsOf4]
  | a :: b :: c :: d :: e :: rest => by simp [groupsOf4]

/-- Joining with one separator: the three shapes of the list of parts. -/
theorem intercalate_cons_cons (sep g g2 : List Char) (gs : List (List Char)) :
    List.intercalate sep (g :: g2 :: gs) = g ++ sep ++ List.intercalate sep (g2 :: gs) := by
  simp [List.intercalate]

/-- Filtering a joined string by a class that excludes the separator filters
the parts put together. -/
theorem filter_intercalate (p : Char → Bool) (sep : Char) (hsep : p sep = false) :
    ∀ gs : List (List Char),
      (List.intercalate [sep] gs).filter p = gs.flatten.filter p
  | [] => by simp [List.intercalate]
  | [g] => by simp [List.intercalate]
  | g :: g2 :: gs => by
    rw [intercalate_cons_cons, List.filter_append, List.filter_append,
      filter_intercalate p sep hsep (g2 :: gs), List.flatten_cons, List.filter_append]
    simp [hsep]

/-- The length of the groups joined by single spaces: the characters plus one
space between consecutive groups. -/
theorem intercalate_groupsOf4_length : ∀ m : List Char,
    (List.intercalate [' '] (groupsOf4 m)).length = m.length + ((m.length + 3) / 4 - 1)
  | [] => by simp [groupsOf4, List.intercalate]
  | [a] => by simp [groupsOf4, List.intercalate]
  | [a, b] => by simp [groupsOf4, List.intercalate]
  | [a, b, c] => by simp [groupsOf4, List.intercalate]
  | [a, b, c, d] => by simp [groupsOf4, List.intercalate]
  | a :: b :: c :: d :: e :: rest => by
    have ih := intercalate_groupsOf4_length (e :: rest)
    have hne : groupsOf4 (e :: rest) ≠ [] := by
      intro h
      have := (groupsOf4_length_eq_zero (e :: rest)).mp (by rw [h]; rfl)
      cases this
    rw [groupsOf4]
    cases hg : groupsOf4 (e :: rest) with
    | nil => exact absurd hg hne
    | cons g2 gs =>
      rw [intercalate_cons_cons, List.length_append, List.length_append, ← hg, ih]
      simp only [List.length_cons, List.length_nil]
      omega

/-- `formatCardNumber` in closed form: with `d` the digits of the input, the
first 16 of them in groups of 4 joined by spaces when there are at least 4, and
the input itself otherwise. -/
theorem formatCardNumber_eq (x : String) :
    formatCardNumber x
      = if 4 ≤ (x.data.filter isDigit09).length then
          ⟨List.intercalate [' '] (groupsOf4 ((x.data.filter isDigit09).take 16))⟩
        else x := by
  have hd : ∀ c ∈ x.data.filter isDigit09, isDigit09 c = true := by
    intro c hc
    exact (List.mem_filter.mp hc).2
  unfold formatCardNumber
  simp only [removeNonDigits_stripWhitespace, firstMatch_digits _ hd, cardParts_eq_groupsOf4]
  by_cases h : 4 ≤ (x.data.filter isDigit09).length
  · have hne : (x.data.filter isDigit09).take 16 ≠ [] := by
      intro he
      have := congrArg List.length he
      simp only [List.length_take, List.length_nil] at this
      omega
    have hlen : (groupsOf4 ((x.data.filter isDigit09).take 16)).length ≠ 0 := by
      intro h0
      exact hne ((groupsOf4_length_eq_zero _).mp h0)
    rw [if_pos h, if_pos hlen, if_pos h]
  · have hlen : ¬ (groupsOf4 ([] : List Char)).length ≠ 0 := by
      simp [groupsOf4]
    rw [if_neg h, if_neg hlen, if_neg h]

/-- The digits of a formatted number with at least 4 digits are the first 16
digits of the input. -/
theorem filter_digits_formatted (d : List Char) (hd : ∀ c ∈ d, isDigit09 c = true) :
    (List.intercalate [' '] (groupsOf4 d)).filter isDigit09 = d := by
  rw [filter_intercalate isDigit09 ' ' space_class.2, groupsOf4_flatten]
  exact List.filter_eq_self.mpr hd

/-- Removing the whitespace of a formatted number with at least 4 digits leaves
its digits. -/
theorem filter_whitespace_formatted (d : List Char) (hd : ∀ c ∈ d, isDigit09 c = true) :
    (List.intercalate [' '] (groupsOf4 d)).filter (fun c => !isWhiteSpace c) = d := by
  rw [filter_intercalate (fun c => !isWhiteSpace c) ' ' (by decide), groupsOf4_flatten]
  apply List.filter_eq_self.mpr
  intro c hc
  simp [isWhiteSpace_of_isDigit09 c (hd c hc)]

/-- C25: for every input string, `formatCardNumber` equals the reference: with
`d` the ASCII digits of the input and `n` their count, the first `min n 16`
digits in groups of 4 joined by single spaces when `n ≥ 4`, which has at most 19
characters, and the input itself, unchanged, when `n < 4`. -/
theorem formatCardNumber_eq_reference (x : String) :
    formatCardNumber x = formatCardNumberRef x
    ∧ (if 4 ≤ (x.data.filter Char.isDigit).length then (formatCardNumber x).length ≤ 19
       else formatCardNumber x = x) := by
  have hfun : (isDigit09 : Char → Bool) = Char.isDigit := funext isDigit09_eq_isDigit
  have hclosed := formatCardNumber_eq x
  rw [hfun] at hclosed
  have htake : (x.data.filter Char.isDigit).take (min (x.data.filter Char.isDigit).length 16)
      = (x.data.filter Char.isDigit).take 16 := by
    by_cases hle : (x.data.filter Char.isDigit).length ≤ 16
    · rw [Nat.min_eq_left hle, List.take_of_length_le (Nat.le_refl _),
        List.take_of_length_le hle]
    · rw [Nat.min_eq_right (by omega)]
  constructor
  · rw [hclosed]
    simp only [formatCardNumberRef, htake]
  · by_cases h : 4 ≤ (x.data.filter Char.isDigit).length
    · rw [if_pos h, hclosed, if_pos h]
      show (List.intercalate [' '] (groupsOf4 ((x.data.filter Char.isDigit).take 16))).length
        ≤ 19
      rw [intercalate_groupsOf4_length, List.length_take]
      omega
    · rw [if_neg h, hclosed, if_neg h]

/-- C26: for every input string, the card number produced by `formatCardNumber`
passes the card-number check of `validateForm` exactly when the input has at
least 16 ASCII digits, and then the digits checked are the first 16 digits of
the input. -/
theorem formatCardNumber_passes_iff (x : String) :
    (regexTest cardNumberRegex (stripWhitespace (formatCardNumber x)) = true
      ↔ 16 ≤ (x.data.filter Char.isDigit).length)
    ∧ (if 16 ≤ (x.data.filter Char.isDigit).length then
        (stripWhitespace (formatCardNumber x)).data = (x.data.filter Char.isDigit).take 16
       else hasError (validateFormErrors ⟨"", formatCardNumber x, "", "", ""⟩) "cardNumber"
          = true) := by
  have hfun : (isDigit09 : Char → Bool) = Char.isDigit := funext isDigit09_eq_isDigit
  have hclosed := formatCardNumber_eq x
  have hd : ∀ c ∈ (x.data.filter isDigit09).take 16, isDigit09 c = true := by
    intro c hc
    exact (List.mem_filter.mp (List.mem_of_mem_take hc)).2
  have hre : cardNumberRegex = [⟨isDigit09, 16, 16⟩] := rfl
  have hpass : regexTest cardNumberRegex (stripWhitespace (formatCardNumber x)) = true
      ↔ 16 ≤ (x.data.filter isDigit09).length := by
    rw [hre, regexTest_single]
    by_cases h : 4 ≤ (x.data.filter isDigit09).length
    · have hs : (stripWhitespace (formatCardNumber x)).data
          = (x.data.filter isDigit09).take 16 := by
        rw [hclosed, if_pos h]
        exact filter_whitespace_formatted _ hd
      have hl : (stripWhitespace (formatCardNumber x)).length
          = ((x.data.filter isDigit09).take 16).length := by
        show (stripWhitespace (formatCardNumber x)).data.length = _
        rw [hs]
      rw [hs, hl, List.length_take]
      constructor
      · rintro ⟨_, h1, _⟩
        simp only at h1
        omega
      · intro h16
        refine ⟨hd, ?_, ?_⟩ <;> simp only <;> omega
    · have hx : formatCardNumber x = x := by rw [hclosed, if_neg h]
      rw [hx]
      constructor
      · rintro ⟨hall, h1, _⟩
        exfalso
        have hsub : (stripWhitespace x).data.filter isDigit09 = (stripWhitespace x).data :=
          List.filter_eq_self.mpr hall
        have hv := removeNonDigits_stripWhitespace x
        simp only [removeNonDigits] at hv
        rw [hsub] at hv
        have hlen : (stripWhitespace x).length = (x.data.filter isDigit09).length := by
          show (stripWhitespace x).data.length = _
          rw [hv]
        simp only at h1
        omega
      · intro h16
        omega
  rw [← hfun]
  refine ⟨hpass, ?_⟩
  by_cases h16 : 16 ≤ (x.data.filter isDigit09).length
  · rw [if_pos h16, hclosed, if_pos (by omega)]
    exact filter_whitespace_formatted _ hd
  · rw [if_neg h16, (hasError_validateFormErrors _).2.1]
    have hnot : ¬ regexTest cardNumberRegex (stripWhitespace (formatCardNumber x)) = true :=
      fun hp => h16 (hpass.mp hp)
    simp only [Bool.not_eq_true] at hnot
    rw [hnot]
    rfl

/-- C27: `formatCardNumber` is idempotent: formatting a formatted card number
changes nothing. -/
theorem formatCardNumber_idempotent (x : String) :
    formatCardNumber (formatCardNumber x) = formatCardNumber x := by
  by_cases h : 4 ≤ (x.data.filter isDigit09).length
  · have hd : ∀ c ∈ (x.data.filter isDigit09).take 16, isDigit09 c = true := by
      intro c hc
      exact (List.mem_filter.mp (List.mem_of_mem_take hc)).2
    have hx : formatCardNumber x
        = ⟨List.intercalate [' '] (groupsOf4 ((x.data.filter isDigit09).take 16))⟩ := by
      rw [formatCardNumber_eq, if_pos h]
    have hdig : (formatCardNumber x).data.filter isDigit09
        = (x.data.filter isDigit09).take 16 := by
      rw [hx]
      exact filter_digits_formatted _ hd
    have hlen : 4 ≤ ((x.data.filter isDigit09).take 16).length := by
      rw [List.length_take]
      omega
    rw [formatCardNumber_eq (formatCardNumber x), hdig, if_pos hlen, List.take_take]
    simp only [Nat.min_self]
    exact hx.symm
  · have hx : formatCardNumber x = x := by rw [formatCardNumber_eq, if_neg h]
    rw [hx, hx]

/-! ## Theorems: validation gates the request -/

/-- The trimmed string is empty exactly when every character is whitespace. -/
theorem trim_eq_empty_iff (s : String) :
    trim s = "" ↔ ∀ c ∈ s.data, isWhiteSpace c = true := by
  have hdata : trim s = "" ↔ (trim s).data = [] := by
    constructor
    · intro h
      rw [h]
    · intro h
      exact String.ext h
  rw [hdata]
  simp only [trim, List.reverse_eq_nil_iff, List.dropWhile_eq_nil_iff, List.mem_reverse]
  constructor
  · intro h
    have hnil : s.data.dropWhile isWhiteSpace = [] := by
      cases hl : s.data.dropWhile isWhiteSpace with
      | nil => rfl
      | cons c cs =>
        exfalso
        have hc : isWhiteSpace c = true := h c (by rw [hl]; simp)
        have hhead := List.head_dropWhile_not isWhiteSpace s.data (by rw [hl]; simp)
        simp only [hl, List.head_cons] at hhead
        rw [hc] at hhead
        cases hhead
    exact List.dropWhile_eq_nil_iff.mp hnil
  · intro h c hc
    exact h c ((List.dropWhile_sublist isWhiteSpace).subset hc)

/-- The form is valid exactly when each of the five checks passes. -/
theorem validateForm_eq_true_iff (p : PaymentInfo) :
    validateForm p = true
      ↔ trim p.cardName ≠ ""
        ∧ regexTest cardNumberRegex (stripWhitespace p.cardNumber) = true
        ∧ p.expiryMonth ≠ "" ∧ p.expiryYear ≠ ""
        ∧ regexTest cvvRegex p.cvv = true := by
  simp only [validateForm, validateFormErrors]
  by_cases c1 : trim p.cardName = "" <;>
  by_cases c2 : regexTest cardNumberRegex (stripWhitespace p.cardNumber) = true <;>
  by_cases c3 : p.expiryMonth = "" <;>
  by_cases c4 : p.expiryYear = "" <;>
  by_cases c5 : regexTest cvvRegex p.cvv = true <;>
  simp [c1, c2, c3, c4, c5]

/-- C22: `handleSubmit` of `Payment.jsx` sends an order-creation request exactly
when `validateForm` returns true and checkout data is present, and in no other
state; `validateForm` returns true exactly when the card name has a
non-whitespace character, the card number without its whitespace is 16 digits,
the expiry month and year are both non-empty, and the cvv is 3 or 4 digits. -/
theorem payment_request_iff_valid (post : Val → PostOutcome) (st : PaymentState) :
    ((Payment.handleSubmit post st).request.isSome = true
      ↔ validateForm st.paymentInfo = true ∧ st.checkoutData.isSome = true)
    ∧ (validateForm st.paymentInfo = true
      ↔ trim st.paymentInfo.cardName ≠ ""
        ∧ ((stripWhitespace st.paymentInfo.cardNumber).length = 16
            ∧ ∀ c ∈ (stripWhitespace st.paymentInfo.cardNumber).data, c.isDigit = true)
        ∧ st.paymentInfo.expiryMonth ≠ "" ∧ st.paymentInfo.expiryYear ≠ ""
        ∧ ((st.paymentInfo.cvv.length = 3 ∨ st.paymentInfo.cvv.length = 4)
            ∧ ∀ c ∈ st.paymentInfo.cvv.data, c.isDigit = true))
    ∧ (trim st.paymentInfo.cardName ≠ ""
      ↔ ∃ c ∈ st.paymentInfo.cardName.data, isWhiteSpace c = false) := by
  refine ⟨?_, ?_, ?_⟩
  · rw [payment_request]
    cases hv : validateForm st.paymentInfo <;> cases hc : st.checkoutData <;> simp
  · have hcard := regexTest_single ⟨isDigit09, 16, 16⟩ (stripWhitespace st.paymentInfo.cardNumber)
    have hcvv := regexTest_single ⟨isDigit09, 3, 4⟩ st.paymentInfo.cvv
    simp only [isDigit09_eq_isDigit] at hcard hcvv
    have hre1 : cardNumberRegex = [⟨isDigit09, 16, 16⟩] := rfl
    have hre2 : cvvRegex = [⟨isDigit09, 3, 4⟩] := rfl
    rw [validateForm_eq_true_iff, hre1, hre2, hcard, hcvv]
    constructor
    · rintro ⟨h1, ⟨h2, h3, h4⟩, h5, h6, h7, h8, h9⟩
      exact ⟨h1, ⟨by omega, h2⟩, h5, h6, by omega, h7⟩
    · rintro ⟨h1, ⟨h2, h3⟩, h5, h6, h7, h8⟩
      exact ⟨h1, ⟨h3, by omega, by omega⟩, h5, h6, h8, by omega, by omega⟩
  · rw [Ne, trim_eq_empty_iff]
    simp

/-! ## Theorems: the draft against the cart -/

/-- Every draft stored by `handleSubmit` of `Checkout.jsx` is the object of lines
192-215 for some shipping address. -/
theorem checkout_draft_form (createAddress : Obj → Option Obj) (st : CheckoutState)
    (draft : CheckoutData)
    (hdraft : (Checkout.handleSubmit createAddress st).checkoutData = some draft) :
    ∃ addressToUse : Val, draft = checkoutDataOf st addressToUse := by
  unfold Checkout.handleSubmit at hdraft
  by_cases h1 : (st.useNewAddress && st.saveAddress) = true
  · rw [if_pos h1] at hdraft
    cases hc : createAddress (newAddressData st.shippingAddress) with
    | none =>
      rw [hc] at hdraft
      cases hdraft
    | some rec =>
      rw [hc] at hdraft
      exact ⟨_, (Option.some.inj hdraft).symm⟩
  · rw [if_neg h1] at hdraft
    by_cases h2 : (!st.useNewAddress) = true
    · rw [if_pos h2] at hdraft
      exact ⟨_, (Option.some.inj hdraft).symm⟩
    · rw [if_neg h2] at hdraft
      exact ⟨_, (Option.some.inj hdraft).symm⟩

/-- Reading the order items of a cart back as lines gives the cart. -/
theorem orderItemLine_orderItemsOf (cart : List CartItem) :
    (orderItemsOf cart).map orderItemLine = cart := by
  induction cart with
  | nil => rfl
  | cons item rest ih =>
    simp only [orderItemsOf, List.map_cons, List.map_map] at ih ⊢
    rw [ih]
    rfl

/-- C23: every checkout draft stored by `handleSubmit` of `Checkout.jsx` is
consistent: its order items are the cart's lines, one per line and in the same
order, each with that line's `_id` (as `product`), name, image, price and
quantity, and its subtotal, shipping cost, tax and total are the pricing
recomputed from its own order items and shipping method. -/
theorem checkout_draft_consistent (createAddress : Obj → Option Obj) (st : CheckoutState)
    (draft : CheckoutData)
    (hdraft : (Checkout.handleSubmit createAddress st).checkoutData = some draft) :
    draft.orderItems.length = st.cart.length
    ∧ draft.orderItems
        = st.cart.map (fun item =>
            ({ product := item._id, name := item.name, image := item.image,
               price := item.price, quantity := item.quantity } : OrderItem))
    ∧ computePricing (draft.orderItems.map orderItemLine) draft.shippingMethod
        = { subtotal := draft.subtotal, shippingCost := draft.shippingCost,
            tax := draft.tax, total := draft.total } := by
  obtain ⟨addressToUse, hform⟩ := checkout_draft_form createAddress st draft hdraft
  rw [hform]
  refine ⟨?_, rfl, ?_⟩
  · simp [checkoutDataOf, orderItemsOf]
  · simp only [checkoutDataOf, orderItemLine_orderItemsOf]

/-- A cart of two lines, a new address that is not saved. -/
theorem checkout_draft_consistent_witness :
    (checkoutDataOf
        ⟨[⟨"p1", "Pen", "pen.png", 100, 2⟩, ⟨"p2", "Ink", "ink.png", 50, 1⟩], [], "", true,
          ⟨"", "", "", "", "", "", "India", ""⟩, ⟨"", "", "", "", "", "", "India", ""⟩,
          true, "standard", false⟩
        (.obj (addressLiteral ⟨"", "", "", "", "", "", "India", ""⟩))).orderItems.length
      = [(⟨"p1", "Pen", "pen.png", 100, 2⟩ : CartItem), ⟨"p2", "Ink", "ink.png", 50, 1⟩].length
    ∧ (checkoutDataOf
        ⟨[⟨"p1", "Pen", "pen.png", 100, 2⟩, ⟨"p2", "Ink", "ink.png", 50, 1⟩], [], "", true,
          ⟨"", "", "", "", "", "", "India", ""⟩, ⟨"", "", "", "", "", "", "India", ""⟩,
          true, "standard", false⟩
        (.obj (addressLiteral ⟨"", "", "", "", "", "", "India", ""⟩))).orderItems
      = [⟨"p1", "Pen", "pen.png", 100, 2⟩, ⟨"p2", "Ink", "ink.png", 50, 1⟩]
    ∧ computePricing
        ((checkoutDataOf
          ⟨[⟨"p1", "Pen", "pen.png", 100, 2⟩, ⟨"p2", "Ink", "ink.png", 50, 1⟩], [], "", true,
            ⟨"", "", "", "", "", "", "India", ""⟩, ⟨"", "", "", "", "", "", "India", ""⟩,
            true, "standard", false⟩
          (.obj (addressLiteral ⟨"", "", "", "", "", "", "India", ""⟩))).orderItems.map
          orderItemLine) "standard"
      = computePricing
          [⟨"p1", "Pen", "pen.png", 100, 2⟩, ⟨"p2", "Ink", "ink.png", 50, 1⟩] "standard" :=
  checkout_draft_consistent (fun _ => none)
    ⟨[⟨"p1", "Pen", "pen.png", 100, 2⟩, ⟨"p2", "Ink", "ink.png", 50, 1⟩], [], "", true,
      ⟨"", "", "", "", "", "", "India", ""⟩, ⟨"", "", "", "", "", "", "India", ""⟩,
      true, "standard", false⟩
    _ rfl

/-- The totals of the payment page for the draft of a cart and that same cart,
when the method is standard or express. -/
theorem paymentTotals_checkoutDataOf (st : CheckoutState) (addressToUse : Val)
    (hmethod : st.shippingMethod = "standard" ∨ st.shippingMethod = "express") :
    paymentTotals (some (checkoutDataOf st addressToUse)) st.cart
      = { subtotal := (checkoutDataOf st addressToUse).subtotal
          shipping := (checkoutDataOf st addressToUse).shippingCost
          tax := (checkoutDataOf st addressToUse).tax
          total := (checkoutDataOf st addressToUse).total } := by
  have hfold : st.cart.foldl (fun total item => total + item.price * item.quantity) 0
      = subtotal st.cart := rfl
  simp only [paymentTotals, checkoutDataOf, computePricing, Option.map_some', hfold, tax]
  have hsub : numOr (some (subtotal st.cart)) (subtotal st.cart) = subtotal st.cart := by
    simp [numOr]
  rw [hsub]
  have hship : numOr (some (shippingCost (subtotal st.cart) st.shippingMethod))
      (if subtotal st.cart > 5000 then 0 else 300)
      = shippingCost (subtotal st.cart) st.shippingMethod := by
    rcases hmethod with hm | hm
    · rw [hm]
      simp only [shippingCost, if_true, numOr]
      by_cases h : subtotal st.cart > 5000
      · simp [h]
      · simp [h]
    · rw [hm]
      simp [shippingCost, numOr]
  rw [hship]
  have htax : numOr (some (subtotal st.cart * (18 / 100))) (subtotal st.cart * (18 / 100))
      = subtotal st.cart * (18 / 100) := by
    simp [numOr]
  rw [htax]
  have htotal : ∀ t : ℚ, numOr (some t) t = t := by
    intro t
    simp [numOr]
  rw [htotal]

/-- C24: for every cart and for the standard and the express shipping method,
when the checkout data is the draft that Checkout stores for that cart and the
payment page sees the same cart, the page's subtotal, shipping, tax and total
are the draft's subtotal, shipping cost, tax and total, also when a value of the
draft is 0 and the page recomputes it. -/
theorem paymentTotals_of_checkout_draft (createAddress : Obj → Option Obj)
    (st : CheckoutState) (draft : CheckoutData)
    (hmethod : st.shippingMethod = "standard" ∨ st.shippingMethod = "express")
    (hdraft : (Checkout.handleSubmit createAddress st).checkoutData = some draft) :
    paymentTotals (some draft) st.cart
      = { subtotal := draft.subtotal, shipping := draft.shippingCost,
          tax := draft.tax, total := draft.total } := by
  obtain ⟨addressToUse, hform⟩ := checkout_draft_form createAddress st draft hdraft
  rw [hform]
  exact paymentTotals_checkoutDataOf st addressToUse hmethod

/-- Free shipping (subtotal 6000, shipping cost 0) and a cart of one free item
(subtotal, tax 0): the page recomputes the zero values and agrees with the
draft. -/
theorem paymentTotals_of_checkout_draft_witness :
    ((checkoutDataOf
        ⟨[line 2000 3], [], "", true, ⟨"", "", "", "", "", "", "India", ""⟩,
          ⟨"", "", "", "", "", "", "India", ""⟩, true, "standard", false⟩
        (.obj (addressLiteral ⟨"", "", "", "", "", "", "India", ""⟩))).shippingCost = 0
      ∧ paymentTotals
          (some (checkoutDataOf
            ⟨[line 2000 3], [], "", true, ⟨"", "", "", "", "", "", "India", ""⟩,
              ⟨"", "", "", "", "", "", "India", ""⟩, true, "standard", false⟩
            (.obj (addressLiteral ⟨"", "", "", "", "", "", "India", ""⟩))))
          [line 2000 3]
        = { subtotal := 6000, shipping := 0, tax := 1080, total := 7080 })
    ∧ ((checkoutDataOf
        ⟨[line 0 1], [], "", true, ⟨"", "", "", "", "", "", "India", ""⟩,
          ⟨"", "", "", "", "", "", "India", ""⟩, true, "express", false⟩
        (.obj (addressLiteral ⟨"", "", "", "", "", "", "India", ""⟩))).subtotal = 0
      ∧ paymentTotals
          (some (checkoutDataOf
            ⟨[line 0 1], [], "", true, ⟨"", "", "", "", "", "", "India", ""⟩,
              ⟨"", "", "", "", "", "", "India", ""⟩, true, "express", false⟩
            (.obj (addressLiteral ⟨"", "", "", "", "", "", "India", ""⟩))))
          [line 0 1]
        = { subtotal := 0, shipping := 500, tax := 0, total := 500 }) := by
  have h1 := paymentTotals_of_checkout_draft (fun _ => none)
    ⟨[line 2000 3], [], "", true, ⟨"", "", "", "", "", "", "India", ""⟩,
      ⟨"", "", "", "", "", "", "India", ""⟩, true, "standard", false⟩
    _ (Or.inl rfl) rfl
  have h2 := paymentTotals_of_checkout_draft (fun _ => none)
    ⟨[line 0 1], [], "", true, ⟨"", "", "", "", "", "", "India", ""⟩,
      ⟨"", "", "", "", "", "", "India", ""⟩, true, "express", false⟩
    _ (Or.inr rfl) rfl
  have v1 : computePricing [line 2000 3] "standard" = ⟨6000, 0, 1080, 7080⟩ := by
    simp [computePricing, shippingCost, subtotal, tax, line]
    norm_num
  have v2 : computePricing [line 0 1] "express" = ⟨0, 500, 0, 500⟩ := by
    simp [computePricing, shippingCost, subtotal, tax, line]
  refine ⟨⟨?_, ?_⟩, ⟨?_, ?_⟩⟩
  · simp only [checkoutDataOf, v1]
  · rw [h1]
    simp only [checkoutDataOf, v1]
  · simp only [checkoutDataOf, v2]
  · rw [h2]
    simp only [checkoutDataOf, v2]

/-! ## Theorems: a repeated submission -/

/-- One accepted creation request whose identity is not yet stored adds one
order; from then on a request with the same identity adds none. -/
theorem OrderServer.create_fresh_then_repeat {Key : Type} [DecidableEq Key]
    (server : OrderServer Key) (store : List (Key × Obj)) (owner : String) (body : Val)
    (haccept : server.accepts owner body = true)
    (hfresh : ∀ entry ∈ store, entry.1 ≠ server.identity owner body) :
    (server.create store owner body).2
      = store ++ [(server.identity owner body, server.makeOrder store.length owner body)]
    ∧ (server.create (server.create store owner body).2 owner body).2
      = (server.create store owner body).2 := by
  have hnone : store.find? (fun entry => decide (entry.1 = server.identity owner body))
      = none := by
    rw [List.find?_eq_none]
    intro entry hentry
    simpa using hfresh entry hentry
  have hfirst : (server.create store owner body).2
      = store ++ [(server.identity owner body, server.makeOrder store.length owner body)] := by
    simp only [OrderServer.create, haccept, if_true, hnone]
  refine ⟨hfirst, ?_⟩
  rw [hfirst]
  have hsome : (store ++ [(server.identity owner body,
        server.makeOrder store.length owner body)]).find?
        (fun entry => decide (entry.1 = server.identity owner body))
      = some (server.identity owner body, server.makeOrder store.length owner body) := by
    rw [List.find?_append, hnone]
    simp
  simp only [OrderServer.create, haccept, if_true, hsome]

/-- C21: two runs of `handleSubmit` of `Payment.jsx` by the same owner, with
valid forms, the same checkout draft and the same payment method, against the
order creation of the specification: both runs send the same creation request;
when the server accepts it and no order of that identity is stored yet, the
first run stores exactly one order and the second run stores none. -/
theorem repeated_submission_one_order {Key : Type} [DecidableEq Key]
    (server : OrderServer Key) (owner : String) (store : List (Key × Obj))
    (st₁ st₂ : PaymentState) (draft : CheckoutData)
    (hvalid₁ : validateForm st₁.paymentInfo = true)
    (hvalid₂ : validateForm st₂.paymentInfo = true)
    (hdraft₁ : st₁.checkoutData = some draft) (hdraft₂ : st₂.checkoutData = some draft)
    (hmethod : st₁.paymentMethod = st₂.paymentMethod)
    (haccept : server.accepts owner (.obj (orderData draft st₁.paymentMethod)) = true)
    (hfresh : ∀ entry ∈ store,
      entry.1 ≠ server.identity owner (.obj (orderData draft st₁.paymentMethod))) :
    (submitPayment server owner store st₁).1.request
      = some (orderData draft st₁.paymentMethod)
    ∧ (submitPayment server owner (submitPayment server owner store st₁).2 st₂).1.request
      = some (orderData draft st₁.paymentMethod)
    ∧ (submitPayment server owner store st₁).2.length = store.length + 1
    ∧ (submitPayment server owner (submitPayment server owner store st₁).2 st₂).2
      = (submitPayment server owner store st₁).2 := by
  have hreq₁ : ∀ post : Val → PostOutcome,
      (Payment.handleSubmit post st₁).request = some (orderData draft st₁.paymentMethod) := by
    intro post
    rw [payment_request, hvalid₁, hdraft₁]
  have hreq₂ : ∀ post : Val → PostOutcome,
      (Payment.handleSubmit post st₂).request = some (orderData draft st₁.paymentMethod) := by
    intro post
    rw [payment_request, hvalid₂, hdraft₂, hmethod]
  have hserver := OrderServer.create_fresh_then_repeat server store owner
    (.obj (orderData draft st₁.paymentMethod)) haccept hfresh
  have hstore₁ : (submitPayment server owner store st₁).2
      = (server.create store owner (.obj (orderData draft st₁.paymentMethod))).2 := by
    simp only [submitPayment, hreq₁]
  have hstore₂ : ∀ s : List (Key × Obj), (submitPayment server owner s st₂).2
      = (server.create s owner (.obj (orderData draft st₁.paymentMethod))).2 := by
    intro s
    simp only [submitPayment, hreq₂]
  refine ⟨hreq₁ _, hreq₂ _, ?_, ?_⟩
  · rw [hstore₁, hserver.1]
    simp
  · rw [hstore₂, hstore₁]
    exact hserver.2

/-- A server that identifies a request by its owner, accepts every request and
has no order yet: two runs with different cards and the same draft. -/
theorem repeated_submission_one_order_witness :
    (submitPayment
        (⟨fun owner _ => owner, fun _ _ => true, fun _ _ => [],
          fun _ _ _ => [("_id", .str "o1")]⟩ : OrderServer String)
        "u1" []
        ⟨[line 100 1],
          some ⟨[⟨"p1", "Pen", "pen.png", 100, 1⟩], .obj [("street", .str "1 Main St")],
            .obj [("street", .str "1 Main St")], "standard", 300, 100, 18, 418⟩,
          "creditCard", ⟨"A", "1234 5678 9012 3456", "01", "2030", "123"⟩, false⟩).2.length
      = ([] : List (String × Obj)).length + 1
    ∧ (submitPayment
        (⟨fun owner _ => owner, fun _ _ => true, fun _ _ => [],
          fun _ _ _ => [("_id", .str "o1")]⟩ : OrderServer String)
        "u1"
        (submitPayment
          (⟨fun owner _ => owner, fun _ _ => true, fun _ _ => [],
            fun _ _ _ => [("_id", .str "o1")]⟩ : OrderServer String)
          "u1" []
          ⟨[line 100 1],
            some ⟨[⟨"p1", "Pen", "pen.png", 100, 1⟩], .obj [("street", .str "1 Main St")],
              .obj [("street", .str "1 Main St")], "standard", 300, 100, 18, 418⟩,
            "creditCard", ⟨"A", "1234 5678 9012 3456", "01", "2030", "123"⟩, false⟩).2
        ⟨[line 100 1],
          some ⟨[⟨"p1", "Pen", "pen.png", 100, 1⟩], .obj [("street", .str "1 Main St")],
            .obj [("street", .str "1 Main St")], "standard", 300, 100, 18, 418⟩,
          "creditCard", ⟨"B", "9999000011112222", "12", "2031", "4321"⟩, true⟩).2
      = (submitPayment
          (⟨fun owner _ => owner, fun _ _ => true, fun _ _ => [],
            fun _ _ _ => [("_id", .str "o1")]⟩ : OrderServer String)
          "u1" []
          ⟨[line 100 1],
            some ⟨[⟨"p1", "Pen", "pen.png", 100, 1⟩], .obj [("street", .str "1 Main St")],
              .obj [("street", .str "1 Main St")], "standard", 300, 100, 18, 418⟩,
            "creditCard", ⟨"A", "1234 5678 9012 3456", "01", "2030", "123"⟩, false⟩).2 :=
  (repeated_submission_one_order
    (⟨fun owner _ => owner, fun _ _ => true, fun _ _ => [],
      fun _ _ _ => [("_id", .str "o1")]⟩ : OrderServer String)
    "u1" []
    ⟨[line 100 1],
      some ⟨[⟨"p1", "Pen", "pen.png", 100, 1⟩], .obj [("street", .str "1 Main St")],
        .obj [("street", .str "1 Main St")], "standard", 300, 100, 18, 418⟩,
      "creditCard", ⟨"A", "1234 5678 9012 3456", "01", "2030", "123"⟩, false⟩
    ⟨[line 100 1],
      some ⟨[⟨"p1", "Pen", "pen.png", 100, 1⟩], .obj [("street", .str "1 Main St")],
        .obj [("street", .str "1 Main St")], "standard", 300, 100, 18, 418⟩,
      "creditCard", ⟨"B", "9999000011112222", "12", "2031", "4321"⟩, true⟩
    _ (by decide) (by decide) rfl rfl rfl rfl
    (by intro entry hentry; cases hentry)).2.2

end Ecommerce
